import Mathlib

/-!
# Verification of the TerraWatt optimal-zones engine

Shallow embedding of the scoring-and-clustering engine of
`src/analysis/optimal_zones.py` and the power-curve capacity-factor model of
`src/analysis/compute_cf_2019.py`, together with theorems settling the frozen
claims about the natural-language specification.

Modelling conventions:
* Python floats are modelled as real numbers (`ℝ`).
* `shapely` geometries are modelled by their distance function: a `Geom` is
  anything that can report its distance (in degrees) to a query point, which
  is exactly the only operation the engine performs on them
  (`geometry.distance(Point(lon, lat))`).
* `pandas`/`numpy` tabular data become lists; `Series.idxmin` becomes
  "first index attaining the minimum".
* A Python `ZeroDivisionError` (float division by zero raises in Python) is
  modelled by `Option`: the scan returns `none` where the Python function
  would raise.
* The NumPy seeded RNG draw in `simple_kmeans`
  (`np.random.seed(42); np.random.choice(n, k, replace=False)`) is an
  external library call; it is abstracted as an explicit list of chosen
  indices passed as a parameter.
-/

open Classical

noncomputable section

/-- Embeds `np.clip x lo hi`: `min (max x lo) hi` (NumPy clips to the upper bound
when `lo > hi`, matching this formula). -/
def clip (x lo hi : ℝ) : ℝ := min (max x lo) hi

/-! ## Embedding of compute_cf_2019.py -/

/-- Embeds `power_output(v, vin, vrated, vout, rated_power)`: instantaneous turbine
power. Zero outside the masks; cubic ramp on `vin ≤ v < vrated`; rated power
on `vrated ≤ v < vout`. -/
def power_output (v vin vrated vout rated_power : ℝ) : ℝ :=
  if vin ≤ v ∧ v < vrated then rated_power * ((v - vin) / (vrated - vin)) ^ 3
  else if vrated ≤ v ∧ v < vout then rated_power
  else 0

/-- Arithmetic mean of a list of reals (`numpy`'s `.mean()`; the empty list —
`NaN` in NumPy — is given the junk value `0/0 = 0` and excluded by
nonemptiness hypotheses in every theorem that touches it). -/
def list_mean (l : List ℝ) : ℝ := l.sum / l.length

/-- Embeds `compute_cf_2019`: hourly wind-speed series → capacity factor.
The NetCDF loading and nearest-grid-point selection are external I/O; the
embedded function starts from the extracted hourly series `wind_series`.
Only the scalar dispatch-down branch (`np.isscalar(dd_fraction)`) is
embedded; the per-hour array branch is not needed by any claim. -/
def compute_cf_2019 (wind_series : List ℝ) (rated_power : ℝ)
    (dd_fraction : Option ℝ) : ℝ :=
  let power := wind_series.map fun v => power_output v 3 12 25 rated_power
  let power :=
    match dd_fraction with
    | none => power
    | some f => power.map fun p => p * (1 - f)
  clip (list_mean power / rated_power) 0 0.55

/-! ## Score functions of optimal_zones.py -/

/-- One record of the ERA5 wind CSV: a sample position and its mean 10 m
wind speed. -/
structure WindSample where
  latitude : ℝ
  longitude : ℝ
  wind_speed_10m : ℝ

/-- A grid-infrastructure or wind-farm geometry, modelled by the one
operation the engine performs on it: distance (in degrees) to a query point
`Point(lon, lat)`. -/
structure Geom where
  dist : ℝ → ℝ → ℝ

/-- First element of `x :: xs` attaining the minimal value of `f`
(`pandas` `idxmin`: ties resolve to the first record). -/
def argminFirst {α : Type} (f : α → ℝ) (x : α) (xs : List α) : α :=
  xs.foldl (fun b y => if f y < f b then y else b) x

/-- The wind sample matched to `(lat, lon)`: the first sample minimising
`sqrt((latᵢ-lat)² + (lonᵢ-lon)²)`, whose speed every score function reads.
Junk value for the empty dataset (where the Python code raises). -/
def matchedWindSpeed (lat lon : ℝ) (wind_data : List WindSample) : ℝ :=
  match wind_data with
  | [] => 0
  | s :: rest =>
      (argminFirst
        (fun t => Real.sqrt ((t.latitude - lat) ^ 2 + (t.longitude - lon) ^ 2))
        s rest).wind_speed_10m

/-- Wind-speed → wind score branch of `calculate_wind_score`:
0 below 6 m/s, 1 from 10 m/s, logistic in between. -/
def sigmoid_wind_score (wind_speed : ℝ) : ℝ :=
  if wind_speed < 6 then 0
  else if 10 ≤ wind_speed then 1
  else 1 / (1 + Real.exp (-2 * (wind_speed - 8)))

/-- Embeds `calculate_wind_score(lat, lon, wind_data)`. -/
def calculate_wind_score (lat lon : ℝ) (wind_data : List WindSample) : ℝ :=
  sigmoid_wind_score (matchedWindSpeed lat lon wind_data)

/-- Embeds `calculate_capacity_factor_score`: `CF ≈ 0.005·v^2.5`, normalised by an
assumed ceiling 0.5 and clipped to `[0,1]`. -/
def calculate_capacity_factor_score (lat lon : ℝ) (wind_data : List WindSample) : ℝ :=
  let wind_speed := matchedWindSpeed lat lon wind_data
  let cf := 0.005 * wind_speed ^ (2.5 : ℝ)
  clip (cf / 0.5) 0 1

/-- Embeds `calculate_actual_capacity_factor`: the same empirical CF, clipped to
`[0,1]`, reported unnormalised. -/
def calculate_actual_capacity_factor (lat lon : ℝ) (wind_data : List WindSample) : ℝ :=
  let wind_speed := matchedWindSpeed lat lon wind_data
  let cf := 0.005 * wind_speed ^ (2.5 : ℝ)
  clip cf 0 1

/-- Embeds `calculate_wind_variability_score`: bucketed proxy on the matched speed. -/
def calculate_wind_variability_score (lat lon : ℝ) (wind_data : List WindSample) : ℝ :=
  let wind_speed := matchedWindSpeed lat lon wind_data
  if wind_speed < 7 then 0.9
  else if wind_speed < 8.5 then 0.7
  else if wind_speed < 10 then 0.5
  else 0.3

/-- Minimum over a geometry list of `g.distance(point) * 111` (km).
Junk value 0 for the empty list (NumPy would give `NaN`); theorems that rely
on it assume the list nonempty. -/
def minGeomDistKm (gs : List Geom) (lat lon : ℝ) : ℝ :=
  match gs with
  | [] => 0
  | g :: rest => rest.foldl (fun m h => min m (h.dist lon lat * 111)) (g.dist lon lat * 111)

/-- Piecewise onshore grid score as a function of the distance `d` (km) to
the nearest infrastructure, including the final `np.clip`. -/
def grid_score_of_dist (d : ℝ) : ℝ :=
  clip
    (if d ≤ 5 then 1
     else if d ≤ 15 then 1 - 0.3 * (d - 5) / 10
     else if d ≤ 30 then 0.7 - 0.4 * (d - 15) / 15
     else 0.3 * Real.exp (-(d - 30) / 20)) 0 1

/-- Embeds `calculate_grid_score(lat, lon, subs, lines)`: the onshore grid score,
computed from the minimum of the nearest-substation and nearest-line
distances. -/
def calculate_grid_score (lat lon : ℝ) (subs lines : List Geom) : ℝ :=
  let min_subs_dist := minGeomDistKm subs lat lon
  let min_line_dist := minGeomDistKm lines lat lon
  grid_score_of_dist (min min_subs_dist min_line_dist)

/-- Embeds `calculate_grid_cost(lat, lon, subs)`: €250k base + €25k per km to the
nearest substation. -/
def calculate_grid_cost (lat lon : ℝ) (subs : List Geom) : ℝ :=
  250000 + 25000 * minGeomDistKm subs lat lon

/-- Embeds `calculate_environmental_score(lat, lon, existing_wind_farms)`:
piecewise in the distance to the nearest existing wind farm; 1.0 when the
provider is absent or empty. -/
def calculate_environmental_score (lat lon : ℝ)
    (existing_wind_farms : Option (List Geom)) : ℝ :=
  match existing_wind_farms with
  | some (g :: rest) =>
      let d := minGeomDistKm (g :: rest) lat lon
      clip
        (if d < 3 then 0.1
         else if d < 8 then 0.1 + 0.5 * (d - 3) / 5
         else if d < 15 then 0.6 + 0.3 * (d - 8) / 7
         else 1) 0 1
  | some [] => clip 1 0 1
  | none => clip 1 0 1

/-- Embeds `calculate_offshore_grid_score(lat, lon, subs, lines)`: offshore variant,
anchored to the substation distance only, thresholds 10/20/40. The `lines`
argument is accepted (as in the source) but unused. -/
def calculate_offshore_grid_score (lat lon : ℝ) (subs _lines : List Geom) : ℝ :=
  let d := minGeomDistKm subs lat lon
  clip
    (if d ≤ 10 then 1
     else if d ≤ 20 then 1 - 0.3 * (d - 10) / 10
     else if d ≤ 40 then 0.7 - 0.4 * (d - 20) / 20
     else 0.3 * Real.exp (-(d - 40) / 20)) 0 1

/-- Embeds `calculate_offshore_environmental_score`: offshore spacing variant,
thresholds 5/15/30. -/
def calculate_offshore_environmental_score (lat lon : ℝ)
    (existing_wind_farms : Option (List Geom)) : ℝ :=
  match existing_wind_farms with
  | some (g :: rest) =>
      let d := minGeomDistKm (g :: rest) lat lon
      clip
        (if d < 5 then 0.1
         else if d < 15 then 0.1 + 0.5 * (d - 5) / 10
         else if d < 30 then 0.6 + 0.3 * (d - 15) / 15
         else 1) 0 1
  | some [] => clip 1 0 1
  | none => clip 1 0 1

/-! ## Site type, categorisation, weights -/

/-- The `wind_farm_type` strings of the engine. Any string other than
`"Auto-Detect"` and `"Offshore"` takes the onshore branch everywhere, so
`Onshore` also stands for those. -/
inductive WFType where
  | Onshore
  | Offshore
  | AutoDetect
deriving DecidableEq

/-- Embeds `determine_onshore_offshore_simple(lat, lon)`: the deterministic
coastline-calibrated heuristic (the body is pure, so its `except` fallback
is unreachable and not embedded). -/
def determine_onshore_offshore_simple (lat lon : ℝ) : WFType :=
  if ¬(51 ≤ lat ∧ lat ≤ 55.5 ∧ -11 ≤ lon ∧ lon ≤ -5) then .Offshore
  else if lon < -8.5 then
    (if lat < 52.5 ∨ lat > 54.5 then .Offshore else .Onshore)
  else if lon > -6.5 then
    (if lat < 51.5 ∨ lat > 55 then .Offshore else .Onshore)
  else
    (if lat < 52 ∨ lat > 55 then .Offshore else .Onshore)

/-- Embeds `determine_onshore_offshore`: the wrapper always takes the simple
deterministic path (the OSM path is commented as too slow and never used). -/
def determine_onshore_offshore (lat lon : ℝ) : WFType :=
  determine_onshore_offshore_simple lat lon

/-- The four `zone_category` labels. -/
inductive ZoneCategory where
  | Excellent
  | Good
  | Moderate
  | Marginal
deriving DecidableEq

/-- Embeds `categorize_zone(composite_score, wind_speed, grid_distance)`:
first matching rule wins. -/
def categorize_zone (composite_score wind_speed grid_distance : ℝ) : ZoneCategory :=
  if composite_score ≥ 0.8 ∧ wind_speed ≥ 8.5 ∧ grid_distance ≤ 15 then .Excellent
  else if composite_score ≥ 0.65 ∧ wind_speed ≥ 7.5 ∧ grid_distance ≤ 25 then .Good
  else if composite_score ≥ 0.45 ∧ wind_speed ≥ 6.5 ∧ grid_distance ≤ 35 then .Moderate
  else .Marginal

/-- The `weights` dict `{wind, grid, environmental}`. -/
structure Weights where
  wind : ℝ
  grid : ℝ
  environmental : ℝ

/-- Embeds `sum(weights.values())`. -/
def Weights.total (w : Weights) : ℝ := w.wind + w.grid + w.environmental

/-- Embeds `{k: v/total_weight for k, v in weights.items()}`. Python float division
by zero raises `ZeroDivisionError`; `none` models that exception. -/
def normalizeWeights (w : Weights) : Option Weights :=
  if w.total = 0 then none
  else some ⟨w.wind / w.total, w.grid / w.total, w.environmental / w.total⟩

/-- The weight normalisation of the sidebar UI
(`optimal_zones_viz.py`, `total_weight > 0` guard): this — not the scan —
is where the `{0.5, 0.3, 0.2}` zero-sum fallback lives. -/
def normalize_weights_ui (wind_input grid_input env_input : ℝ) : Weights :=
  let total_weight := wind_input + grid_input + env_input
  if total_weight > 0 then
    ⟨wind_input / total_weight, grid_input / total_weight, env_input / total_weight⟩
  else ⟨0.5, 0.3, 0.2⟩

/-- One row of the results table built by the scans (the redundant
`geometry = Point(lon, lat)` column is determined by `latitude`/`longitude`
and omitted). -/
structure Zone where
  latitude : ℝ
  longitude : ℝ
  wind_score : ℝ
  capacity_factor_score : ℝ
  capacity_factor : ℝ
  variability_score : ℝ
  wind_composite_score : ℝ
  grid_score : ℝ
  environmental_score : ℝ
  composite_score : ℝ
  wind_farm_type : WFType
  wind_speed_mps : ℝ
  grid_distance_km : ℝ
  grid_cost_eur : ℝ
  zone_category : ZoneCategory

/-- The external data loaded at the start of a scan: the ERA5 wind CSV, the
substation and line geometries, and the optional existing-wind-farms layer. -/
structure Env where
  wind_data : List WindSample
  subs : List Geom
  lines : List Geom
  existing_wind_farms : Option (List Geom)

/-! ## Grid generation -/

/-- Embeds `np.arange(start, stop, step)` in exact real arithmetic: elements
`start + k·step` for `k < ⌈(stop − start)/step⌉`. -/
def arange (start stop step : ℝ) : List ℝ :=
  (List.range (Nat.ceil ((stop - start) / step))).map fun k => start + (k : ℝ) * step

/-- The candidate grid: `for lat in lats: for lon in lons` (lat-major). -/
def gridPoints (lats lons : List ℝ) : List (ℝ × ℝ) :=
  lats.flatMap fun lat => lons.map fun lon => (lat, lon)

/-! ## The plain scan calculate_optimal_zones -/

/-- Per-point loop of `calculate_optimal_zones` (lines 431–514). `none`
models the `ZeroDivisionError` raised when a candidate passes the
feasibility filter and the supplied weights sum to zero. -/
def calculate_optimal_zones_loop (env : Env)
    (min_wind_speed max_grid_distance : ℝ) (weights : Weights)
    (wind_farm_type : WFType) : List (ℝ × ℝ) → Option (List Zone)
  | [] => some []
  | p :: rest =>
    let lat := p.1
    let lon := p.2
    let wind_score := calculate_wind_score lat lon env.wind_data
    let cf_score := calculate_capacity_factor_score lat lon env.wind_data
    let actual_cf := calculate_actual_capacity_factor lat lon env.wind_data
    let variability_score := calculate_wind_variability_score lat lon env.wind_data
    let ge : ℝ × ℝ :=
      match wind_farm_type with
      | .AutoDetect =>
          match determine_onshore_offshore lat lon with
          | .Offshore =>
              (calculate_offshore_grid_score lat lon env.subs env.lines,
               calculate_offshore_environmental_score lat lon env.existing_wind_farms)
          | _ =>
              (calculate_grid_score lat lon env.subs env.lines,
               calculate_environmental_score lat lon env.existing_wind_farms)
      | .Offshore =>
          (calculate_offshore_grid_score lat lon env.subs env.lines,
           calculate_offshore_environmental_score lat lon env.existing_wind_farms)
      | .Onshore =>
          (calculate_grid_score lat lon env.subs env.lines,
           calculate_environmental_score lat lon env.existing_wind_farms)
    let grid_score := ge.1
    let env_score := ge.2
    let wind_speed := 5 + wind_score * 7
    let min_grid_dist := minGeomDistKm env.subs lat lon
    if wind_speed < min_wind_speed ∨ min_grid_dist > max_grid_distance then
      calculate_optimal_zones_loop env min_wind_speed max_grid_distance weights
        wind_farm_type rest
    else
      match normalizeWeights weights with
      | none => none
      | some nw =>
          let wind_composite := 0.7 * wind_score + 0.3 * variability_score
          let composite_score :=
            clip (nw.wind * wind_composite + nw.grid * grid_score +
                  nw.environmental * env_score) 0 1
          let grid_cost := calculate_grid_cost lat lon env.subs
          let location_type : WFType :=
            match wind_farm_type with
            | .AutoDetect => determine_onshore_offshore lat lon
            | t => t
          let z : Zone :=
            ⟨lat, lon, wind_score, cf_score, actual_cf, variability_score,
             wind_composite, grid_score, env_score, composite_score,
             location_type, wind_speed, min_grid_dist, grid_cost,
             categorize_zone composite_score wind_speed min_grid_dist⟩
          (calculate_optimal_zones_loop env min_wind_speed max_grid_distance
            weights wind_farm_type rest).map (z :: ·)

/-- Embeds `calculate_optimal_zones(grid_resolution, min_wind_speed,
max_grid_distance, weights, wind_farm_type)`: fixed bounding box
51–55.5 °N, −11–−5 °E, per-point scoring and filtering, then the
wind-farm-type post-filter for explicit (non-Auto-Detect) types. -/
def calculate_optimal_zones (env : Env) (grid_resolution : ℝ)
    (min_wind_speed max_grid_distance : ℝ) (weights : Weights)
    (wind_farm_type : WFType) : Option (List Zone) :=
  let lats := arange 51 55.5 grid_resolution
  let lons := arange (-11) (-5) grid_resolution
  let grid_points := gridPoints lats lons
  (calculate_optimal_zones_loop env min_wind_speed max_grid_distance weights
      wind_farm_type grid_points).map fun results =>
    if wind_farm_type ≠ .AutoDetect then
      results.filter fun r => r.wind_farm_type = wind_farm_type
    else results

/-! ## The progress-reporting scan calculate_optimal_zones_with_progress

The source duplicates the whole per-point loop; the embedding duplicates it
too, so that the equivalence between the two paths is a theorem and not a
modelling artefact. The differences in the source: an optional callback is
invoked at coarse intervals (its return value is discarded, so it cannot
affect the pure result and is an unused parameter here), the grid bounds are
shrunk inward by 0.1° when `wind_farm_type == "Offshore"`, and a
per-invocation `grid_distance_cache` memoises the substation distance under
the lossy key `f"{lat:.3f}_{lon:.3f}"` — rounding to three decimals, so
distinct candidate points closer than 0.001° can share an entry and one
point's exact distance is reused for another. The cache is embedded as an
association list threaded through the loop. -/

/-- Embeds the 3-decimal rounding performed by the `f"{x:.3f}"` cache-key
format: round to the nearest multiple of 0.001. Exact representation-
dependent float tie-breaking (and the `-0.000` vs `0.000` sign edge, which
cannot occur in this scan's coordinate ranges) is idealised to
round-half-up over the reals. -/
def round3 (x : ℝ) : ℝ := (round (x * 1000) : ℝ) / 1000

/-- Embeds the cache key `f"{lat:.3f}_{lon:.3f}"`: two points share a key
exactly when their 3-decimal roundings agree. -/
def cacheKey (lat lon : ℝ) : ℝ × ℝ := (round3 lat, round3 lon)

/-- Embeds `cache_key in grid_distance_cache` /
`grid_distance_cache[cache_key]` over the association-list model of the
dict (keys are unique because an entry is only added on a miss). -/
def lookupCache : List ((ℝ × ℝ) × ℝ) → (ℝ × ℝ) → Option ℝ
  | [], _ => none
  | e :: rest, key => if e.1 = key then some e.2 else lookupCache rest key

/-- Per-point loop of `calculate_optimal_zones_with_progress`
(lines 820–910), duplicated from the plain loop as in the source, with the
`grid_distance_cache` threaded as an extra association-list argument: on a
key hit the cached distance is reused, on a miss the exact distance is
computed and stored (before the feasibility check, so rejected candidates
also populate the cache, as in the source). -/
def calculate_optimal_zones_with_progress_loop (env : Env)
    (min_wind_speed max_grid_distance : ℝ) (weights : Weights)
    (wind_farm_type : WFType) :
    List (ℝ × ℝ) → List ((ℝ × ℝ) × ℝ) → Option (List Zone)
  | [], _cache => some []
  | p :: rest, cache =>
    let lat := p.1
    let lon := p.2
    let wind_score := calculate_wind_score lat lon env.wind_data
    let cf_score := calculate_capacity_factor_score lat lon env.wind_data
    let actual_cf := calculate_actual_capacity_factor lat lon env.wind_data
    let variability_score := calculate_wind_variability_score lat lon env.wind_data
    let ge : ℝ × ℝ :=
      match wind_farm_type with
      | .AutoDetect =>
          match determine_onshore_offshore lat lon with
          | .Offshore =>
              (calculate_offshore_grid_score lat lon env.subs env.lines,
               calculate_offshore_environmental_score lat lon env.existing_wind_farms)
          | _ =>
              (calculate_grid_score lat lon env.subs env.lines,
               calculate_environmental_score lat lon env.existing_wind_farms)
      | .Offshore =>
          (calculate_offshore_grid_score lat lon env.subs env.lines,
           calculate_offshore_environmental_score lat lon env.existing_wind_farms)
      | .Onshore =>
          (calculate_grid_score lat lon env.subs env.lines,
           calculate_environmental_score lat lon env.existing_wind_farms)
    let grid_score := ge.1
    let env_score := ge.2
    let wind_speed := 5 + wind_score * 7
    let dc : ℝ × List ((ℝ × ℝ) × ℝ) :=
      match lookupCache cache (cacheKey lat lon) with
      | some d => (d, cache)
      | none =>
          let d := minGeomDistKm env.subs lat lon
          (d, (cacheKey lat lon, d) :: cache)
    let min_grid_dist := dc.1
    let cache' := dc.2
    if wind_speed < min_wind_speed ∨ min_grid_dist > max_grid_distance then
      calculate_optimal_zones_with_progress_loop env min_wind_speed
        max_grid_distance weights wind_farm_type rest cache'
    else
      match normalizeWeights weights with
      | none => none
      | some nw =>
          let wind_composite := 0.7 * wind_score + 0.3 * variability_score
          let composite_score :=
            clip (nw.wind * wind_composite + nw.grid * grid_score +
                  nw.environmental * env_score) 0 1
          let grid_cost := calculate_grid_cost lat lon env.subs
          let location_type : WFType :=
            match wind_farm_type with
            | .AutoDetect => determine_onshore_offshore lat lon
            | t => t
          let z : Zone :=
            ⟨lat, lon, wind_score, cf_score, actual_cf, variability_score,
             wind_composite, grid_score, env_score, composite_score,
             location_type, wind_speed, min_grid_dist, grid_cost,
             categorize_zone composite_score wind_speed min_grid_dist⟩
          (calculate_optimal_zones_with_progress_loop env min_wind_speed
            max_grid_distance weights wind_farm_type rest cache').map (z :: ·)

/-- Grid bounds of the progress-reporting scan: `(lat_min, lat_max,
lon_min, lon_max)`. For `"Offshore"` they are shrunk inward by the
`offshore_buffer = 0.1`. -/
def progressBounds (wind_farm_type : WFType) : ℝ × ℝ × ℝ × ℝ :=
  match wind_farm_type with
  | .Offshore =>
      (max 51 (51 + 0.1), min 55.5 (55.5 - 0.1),
       max (-11) (-11 + 0.1), min (-5) (-5 - 0.1))
  | _ => (51, 55.5, -11, -5)

/-- The zones computed by `calculate_optimal_zones_with_progress` (its first
return component, before the clustering pass attaches `cluster_id`).
`progress_callback` is the observational hook: the source discards its
return value, so it is an unused parameter of obvious no effect here. The
`grid_distance_cache` starts empty (`grid_distance_cache = {}`). -/
def calculate_optimal_zones_with_progress (env : Env) (grid_resolution : ℝ)
    (min_wind_speed max_grid_distance : ℝ) (weights : Weights)
    (wind_farm_type : WFType)
    (progress_callback : Option (ℝ → String → Unit)) : Option (List Zone) :=
  let b := progressBounds wind_farm_type
  let lats := arange b.1 b.2.1 grid_resolution
  let lons := arange b.2.2.1 b.2.2.2 grid_resolution
  let grid_points := gridPoints lats lons
  (calculate_optimal_zones_with_progress_loop env min_wind_speed
      max_grid_distance weights wind_farm_type grid_points []).map fun results =>
    if wind_farm_type ≠ .AutoDetect then
      results.filter fun r => r.wind_farm_type = wind_farm_type
    else results

/-! ## Embedding of simple_kmeans and cluster_optimal_zones -/

/-- Euclidean distance in the plane (`scipy.spatial.distance.cdist` with the
default metric). -/
def euclid (p q : ℝ × ℝ) : ℝ :=
  Real.sqrt ((p.1 - q.1) ^ 2 + (p.2 - q.2) ^ 2)

/-- Embeds `np.argmin` over a list: index of the first minimal element (0 for the
empty list, where NumPy raises). -/
def argminIdxAux (best : ℝ) (bestIdx idx : ℕ) : List ℝ → ℕ
  | [] => bestIdx
  | d :: rest =>
      if d < best then argminIdxAux d idx (idx + 1) rest
      else argminIdxAux best bestIdx (idx + 1) rest

/-- Embeds `np.argmin(distances)`: first index attaining the minimum. -/
def argminIdx : List ℝ → ℕ
  | [] => 0
  | d :: rest => argminIdxAux d 0 1 rest

/-- Embeds `coords[labels == j].mean(axis=0)`: componentwise mean of the points
carrying label `j` (the empty cluster — `NaN` in NumPy — gets the junk value
`(0/0, 0/0) = (0, 0)`; see the spec's open question on degenerate clusters). -/
def clusterMean (coords : List (ℝ × ℝ)) (labels : List ℕ) (j : ℕ) : ℝ × ℝ :=
  let pts := ((coords.zip labels).filter fun pl => pl.2 == j).map (·.1)
  ((pts.map (·.1)).sum / pts.length, (pts.map (·.2)).sum / pts.length)

/-- Embeds `np.allclose(centroids, new_centroids, atol=tolerance)` on equal-length
centroid lists: every coordinate satisfies `|a − b| ≤ atol + rtol·|b|` with
NumPy's default `rtol = 1e-5 = 1/100000`. -/
def allclose (a b : List (ℝ × ℝ)) (atol : ℝ) : Prop :=
  ∀ pq ∈ a.zip b,
    |pq.1.1 - pq.2.1| ≤ atol + 1 / 100000 * |pq.2.1| ∧
    |pq.1.2 - pq.2.2| ≤ atol + 1 / 100000 * |pq.2.2|

/-- The `for _ in range(max_iters)` loop of `simple_kmeans`: compute labels,
recompute centroids, and stop (returning the fresh labels and the *old*
centroids) as soon as `np.allclose` fires, or when the iteration budget is
exhausted (returning the values carried by the final state). -/
def kmeansLoop (coords : List (ℝ × ℝ)) (k : ℕ) (tol : ℝ) :
    ℕ → List (ℝ × ℝ) → List ℕ → List ℕ × List (ℝ × ℝ)
  | 0, centroids, labels => (labels, centroids)
  | fuel + 1, centroids, labels =>
      let labels' := coords.map fun p => argminIdx (centroids.map fun c => euclid p c)
      let new_centroids := (List.range k).map fun j => clusterMean coords labels' j
      if allclose centroids new_centroids tol then (labels', centroids)
      else kmeansLoop coords k tol fuel new_centroids labels'
      -- `labels` is only returned if the budget runs out before any iteration,
      -- which cannot happen for `max_iters = 100`; Python would raise
      -- `NameError` there, a dead branch.

/-- Embeds `simple_kmeans(coords, n_clusters, max_iters=100, tolerance=1e-4)`.
`init_idx` is the index list drawn by the seeded
`np.random.choice(n_points, n_clusters, replace=False)` — the RNG is an
external library and its draw enters as a parameter; `k = min(n_clusters,
n_points)` distinct valid indices are supplied by hypotheses where needed. -/
def simple_kmeans (coords : List (ℝ × ℝ)) (n_clusters : ℕ) (init_idx : List ℕ)
    (max_iters : ℕ) (tolerance : ℝ) : List ℕ × List (ℝ × ℝ) :=
  let k := min n_clusters coords.length
  let centroids := init_idx.filterMap fun i => coords.get? i
  kmeansLoop coords k tolerance max_iters centroids []

/-- Componentwise mean of a coordinate list — the arithmetic mean the spec
says a `k = 1` clustering must return. -/
def meanPoint (coords : List (ℝ × ℝ)) : ℝ × ℝ :=
  ((coords.map (·.1)).sum / coords.length, (coords.map (·.2)).sum / coords.length)

/-- One record of the `cluster_stats` list. -/
structure ClusterStat where
  cluster_id : ℕ
  count : ℕ
  avg_score : ℝ
  avg_wind_speed : ℝ
  avg_grid_distance : ℝ
  centroid_lat : ℝ
  centroid_lon : ℝ

/-- Embeds `cluster_optimal_zones(gdf, n_clusters=10)`: k-means over the
`(longitude, latitude)` coordinates of the accepted zones with
`k = min(n_clusters, len(gdf))`, returning each zone paired with its
`cluster_id` plus per-cluster aggregates of the nonempty clusters. -/
def cluster_optimal_zones (zones : List Zone) (n_clusters : ℕ)
    (init_idx : List ℕ) : List (Zone × ℕ) × List ClusterStat :=
  match zones with
  | [] => ([], [])
  | _ =>
      let coords := zones.map fun z => (z.longitude, z.latitude)
      let km := simple_kmeans coords (min n_clusters zones.length) init_idx 100 (1 / 10000)
      let labeled := zones.zip km.1
      let stats := (List.range km.2.length).filterMap fun cid =>
        let cdata := labeled.filter fun zl => zl.2 == cid
        if cdata.length > 0 then
          some ⟨cid, cdata.length,
                list_mean (cdata.map fun zl => zl.1.composite_score),
                list_mean (cdata.map fun zl => zl.1.wind_speed_mps),
                list_mean (cdata.map fun zl => zl.1.grid_distance_km),
                list_mean (cdata.map fun zl => zl.1.latitude),
                list_mean (cdata.map fun zl => zl.1.longitude)⟩
        else none
      (labeled, stats)

/-! ## Characterisation layer

Spec-side definitions used only in theorem statements and proofs: the
feasibility predicate, the record built for an accepted candidate, and the
filter-map form of the scan output. -/

/-- The feasibility condition as the loop tests it: the candidate is *kept*
iff the reconstructed wind speed is not below `min_wind_speed` and the
nearest-substation distance does not exceed `max_grid_distance`. -/
def acceptCond (env : Env) (min_wind_speed max_grid_distance : ℝ)
    (p : ℝ × ℝ) : Prop :=
  ¬(5 + calculate_wind_score p.1 p.2 env.wind_data * 7 < min_wind_speed ∨
    minGeomDistKm env.subs p.1 p.2 > max_grid_distance)

/-- The normalised weights `{k: v/total for k, v}` as a total function,
meaningful when `total ≠ 0`. -/
def normWeights (w : Weights) : Weights :=
  ⟨w.wind / w.total, w.grid / w.total, w.environmental / w.total⟩

/-- The Zone record the loop appends for an accepted candidate `p`, given
the already-normalised weights `nw`. -/
def mkZone (env : Env) (nw : Weights) (wind_farm_type : WFType)
    (p : ℝ × ℝ) : Zone :=
  let lat := p.1
  let lon := p.2
  let wind_score := calculate_wind_score lat lon env.wind_data
  let cf_score := calculate_capacity_factor_score lat lon env.wind_data
  let actual_cf := calculate_actual_capacity_factor lat lon env.wind_data
  let variability_score := calculate_wind_variability_score lat lon env.wind_data
  let ge : ℝ × ℝ :=
    match wind_farm_type with
    | .AutoDetect =>
        match determine_onshore_offshore lat lon with
        | .Offshore =>
            (calculate_offshore_grid_score lat lon env.subs env.lines,
             calculate_offshore_environmental_score lat lon env.existing_wind_farms)
        | _ =>
            (calculate_grid_score lat lon env.subs env.lines,
             calculate_environmental_score lat lon env.existing_wind_farms)
    | .Offshore =>
        (calculate_offshore_grid_score lat lon env.subs env.lines,
         calculate_offshore_environmental_score lat lon env.existing_wind_farms)
    | .Onshore =>
        (calculate_grid_score lat lon env.subs env.lines,
         calculate_environmental_score lat lon env.existing_wind_farms)
  let grid_score := ge.1
  let env_score := ge.2
  let wind_speed := 5 + wind_score * 7
  let min_grid_dist := minGeomDistKm env.subs lat lon
  let wind_composite := 0.7 * wind_score + 0.3 * variability_score
  let composite_score :=
    clip (nw.wind * wind_composite + nw.grid * grid_score +
          nw.environmental * env_score) 0 1
  let grid_cost := calculate_grid_cost lat lon env.subs
  let location_type : WFType :=
    match wind_farm_type with
    | .AutoDetect => determine_onshore_offshore lat lon
    | t => t
  ⟨lat, lon, wind_score, cf_score, actual_cf, variability_score,
   wind_composite, grid_score, env_score, composite_score,
   location_type, wind_speed, min_grid_dist, grid_cost,
   categorize_zone composite_score wind_speed min_grid_dist⟩

/-- Filter-map form of the loop output: the accepted candidates, in order,
each mapped to its Zone record. -/
def acceptedZones (env : Env) (min_wind_speed max_grid_distance : ℝ)
    (nw : Weights) (wind_farm_type : WFType) : List (ℝ × ℝ) → List Zone
  | [] => []
  | p :: rest =>
      if acceptCond env min_wind_speed max_grid_distance p then
        mkZone env nw wind_farm_type p ::
          acceptedZones env min_wind_speed max_grid_distance nw wind_farm_type rest
      else acceptedZones env min_wind_speed max_grid_distance nw wind_farm_type rest

/-- Numeric rank of a category: `Excellent > Good > Moderate > Marginal`. -/
def catRank : ZoneCategory → ℕ
  | .Excellent => 3
  | .Good => 2
  | .Moderate => 1
  | .Marginal => 0

/-! ## Concrete fixtures used by witnesses and counterexamples -/

/-- A geometry at distance 0° from every query point. -/
def geom0 : Geom := ⟨fun _ _ => 0⟩

/-- A geometry at distance 1° (= 111 km after scaling) from every query
point. -/
def geom1 : Geom := ⟨fun _ _ => 1⟩

/-- A single ERA5 sample with mean wind speed 10 m/s. -/
def sample10 : WindSample := ⟨53, -8, 10⟩

/-- Environment: one 10 m/s wind sample, one substation and one line both at
distance 0, no existing wind farms. -/
def envW : Env := ⟨[sample10], [geom0], [geom0], none⟩

/-- Environment whose only substation is 1° (111 km) away but whose only
transmission line is at distance 0 — close to a line, far from every
substation. -/
def envLine : Env := ⟨[sample10], [geom1], [geom0], none⟩

/-- The default weights `{wind: 0.5, grid: 0.3, environmental: 0.2}`. -/
def w0 : Weights := ⟨0.5, 0.3, 0.2⟩

/-- The zone produced by the plain scan on `envW` at resolution 10 (the
single candidate point is `(51, −11)`). -/
def zW : Zone := mkZone envW w0 .Onshore (51, -11)

/-- Two coordinates 10⁻⁵ degrees apart: close enough that `np.allclose`
accepts the initial centroid before it is ever replaced by the mean. -/
def coordsC8 : List (ℝ × ℝ) := [(0, 0), (1 / 100000, 0)]

/-! ## Loop characterisation lemmas -/

/-- Under well-defined weight normalisation the plain per-point loop is the
filter-map of the candidate list. -/
theorem calculate_optimal_zones_loop_eq (env : Env)
    (min_wind_speed max_grid_distance : ℝ) (w nw : Weights)
    (t : WFType) (hn : normalizeWeights w = some nw) :
    ∀ pts : List (ℝ × ℝ),
      calculate_optimal_zones_loop env min_wind_speed max_grid_distance w t pts
        = some (acceptedZones env min_wind_speed max_grid_distance nw t pts) := by
  intro pts
  induction pts with
  | nil => rfl
  | cons p rest ih =>
      rw [calculate_optimal_zones_loop.eq_def, acceptedZones]
      simp only []
      by_cases hc : acceptCond env min_wind_speed max_grid_distance p
      · have hc' := hc
        unfold acceptCond at hc'
        rw [if_neg hc', hn, if_pos hc, ih]
        rfl
      · have hc' := hc
        unfold acceptCond at hc'
        rw [if_pos (not_not.mp hc'), if_neg hc, ih]

/-- Evaluation of `lookupCache` on a cons cell. -/
theorem lookupCache_cons (k : ℝ × ℝ) (v : ℝ) (rest : List ((ℝ × ℝ) × ℝ))
    (key : ℝ × ℝ) :
    lookupCache ((k, v) :: rest) key
      = if k = key then some v else lookupCache rest key := rfl

set_option maxHeartbeats 2000000 in
/-- The progress-reporting per-point loop computes exactly the same thing as
the plain one — the duplicated bodies are line-for-line identical — provided
the cache never hits: every candidate's key is absent from the incoming
cache and the candidates' keys are pairwise distinct (no 3-decimal
aliasing). -/
theorem progress_loop_eq_plain_loop (env : Env)
    (min_wind_speed max_grid_distance : ℝ) (w : Weights) (t : WFType) :
    ∀ (pts : List (ℝ × ℝ)) (cache : List ((ℝ × ℝ) × ℝ)),
      (∀ q ∈ pts, lookupCache cache (cacheKey q.1 q.2) = none) →
      (pts.map fun q => cacheKey q.1 q.2).Nodup →
      calculate_optimal_zones_with_progress_loop env min_wind_speed
          max_grid_distance w t pts cache
        = calculate_optimal_zones_loop env min_wind_speed max_grid_distance w t pts := by
  intro pts
  induction pts with
  | nil =>
      intro cache _ _
      rfl
  | cons p rest ih =>
      intro cache hmiss hnodup
      rw [List.map_cons, List.nodup_cons] at hnodup
      obtain ⟨hnotin, hnodup'⟩ := hnodup
      have hmiss' : ∀ q ∈ rest,
          lookupCache ((cacheKey p.1 p.2, minGeomDistKm env.subs p.1 p.2) :: cache)
            (cacheKey q.1 q.2) = none := by
        intro q hq
        have hne : ¬(cacheKey p.1 p.2 = cacheKey q.1 q.2) := by
          intro heq
          refine hnotin ?_
          rw [heq]
          exact List.mem_map_of_mem (fun r => cacheKey r.1 r.2) hq
        rw [lookupCache_cons, if_neg hne, hmiss q (List.mem_cons_of_mem p hq)]
      rw [calculate_optimal_zones_with_progress_loop.eq_def,
          calculate_optimal_zones_loop.eq_def]
      simp only []
      rw [hmiss p (List.mem_cons_self p rest)]
      simp only [ih ((cacheKey p.1 p.2, minGeomDistKm env.subs p.1 p.2) :: cache)
        hmiss' hnodup']

/-- Every record built for an explicit (non-Auto-Detect) type carries that
type, so the post-filter keeps everything. -/
theorem wind_farm_type_mkZone (env : Env) (nw : Weights) (t : WFType)
    (ht : t ≠ .AutoDetect) (p : ℝ × ℝ) :
    (mkZone env nw t p).wind_farm_type = t := by
  cases t with
  | Onshore => rfl
  | Offshore => rfl
  | AutoDetect => exact absurd rfl ht

/-- The wind-farm-type post-filter keeps every record produced for an
explicit (non-Auto-Detect) type. -/
theorem filter_acceptedZones (env : Env)
    (min_wind_speed max_grid_distance : ℝ) (nw : Weights) (t : WFType)
    (ht : ¬t = WFType.AutoDetect) (pts : List (ℝ × ℝ)) :
    (acceptedZones env min_wind_speed max_grid_distance nw t pts).filter
        (fun r => r.wind_farm_type = t)
      = acceptedZones env min_wind_speed max_grid_distance nw t pts := by
  induction pts with
  | nil => rfl
  | cons p rest ih =>
      rw [acceptedZones]
      by_cases hc : acceptCond env min_wind_speed max_grid_distance p
      · rw [if_pos hc]
        simp [List.filter_cons, wind_farm_type_mkZone env nw t ht, ih]
      · rw [if_neg hc]
        exact ih

/-- The scan output in filter-map form, for every wind-farm type. -/
theorem calculate_optimal_zones_eq (env : Env)
    (grid_resolution min_wind_speed max_grid_distance : ℝ) (w nw : Weights)
    (t : WFType) (hn : normalizeWeights w = some nw) :
    calculate_optimal_zones env grid_resolution min_wind_speed
        max_grid_distance w t
      = some (acceptedZones env min_wind_speed max_grid_distance nw t
          (gridPoints (arange 51 55.5 grid_resolution)
            (arange (-11) (-5) grid_resolution))) := by
  simp only [calculate_optimal_zones]
  rw [calculate_optimal_zones_loop_eq env min_wind_speed max_grid_distance w nw t hn]
  simp only [Option.map_some']
  by_cases ht : t = WFType.AutoDetect
  · rw [if_neg (by simp [ht])]
  · rw [if_pos ht, filter_acceptedZones env min_wind_speed max_grid_distance nw t ht]

/-- The progress-reporting scan output in filter-map form, over its own
(possibly shrunken) candidate grid, provided the candidates' cache keys are
pairwise distinct (the initial cache is empty, so that is the only way a
cache hit can occur). -/
theorem calculate_optimal_zones_with_progress_eq (env : Env)
    (grid_resolution min_wind_speed max_grid_distance : ℝ) (w nw : Weights)
    (t : WFType) (cb : Option (ℝ → String → Unit))
    (hn : normalizeWeights w = some nw)
    (hnodup : ((gridPoints
        (arange (progressBounds t).1 (progressBounds t).2.1 grid_resolution)
        (arange (progressBounds t).2.2.1 (progressBounds t).2.2.2
          grid_resolution)).map fun q => cacheKey q.1 q.2).Nodup) :
    calculate_optimal_zones_with_progress env grid_resolution min_wind_speed
        max_grid_distance w t cb
      = some (acceptedZones env min_wind_speed max_grid_distance nw t
          (gridPoints
            (arange (progressBounds t).1 (progressBounds t).2.1 grid_resolution)
            (arange (progressBounds t).2.2.1 (progressBounds t).2.2.2
              grid_resolution))) := by
  simp only [calculate_optimal_zones_with_progress]
  rw [progress_loop_eq_plain_loop env min_wind_speed max_grid_distance w t _ []
        (fun q _ => rfl) hnodup,
      calculate_optimal_zones_loop_eq env min_wind_speed max_grid_distance w nw t hn]
  simp only [Option.map_some']
  by_cases ht : t = WFType.AutoDetect
  · rw [if_neg (by simp [ht])]
  · rw [if_pos ht, filter_acceptedZones env min_wind_speed max_grid_distance nw t ht]

/-- Membership in the filter-map form: a record is in the output exactly
when it is the record of some accepted candidate. -/
theorem mem_acceptedZones (env : Env) (min_wind_speed max_grid_distance : ℝ)
    (nw : Weights) (t : WFType) (pts : List (ℝ × ℝ)) (z : Zone) :
    z ∈ acceptedZones env min_wind_speed max_grid_distance nw t pts
      ↔ ∃ p ∈ pts, acceptCond env min_wind_speed max_grid_distance p ∧
          z = mkZone env nw t p := by
  induction pts with
  | nil => simp [acceptedZones]
  | cons p rest ih =>
      rw [acceptedZones]
      by_cases hc : acceptCond env min_wind_speed max_grid_distance p
      · rw [if_pos hc]
        constructor
        · intro hz
          rcases List.mem_cons.mp hz with rfl | hz'
          · exact ⟨p, List.mem_cons_self p rest, hc, rfl⟩
          · obtain ⟨q, hq, hqc, rfl⟩ := ih.mp hz'
            exact ⟨q, List.mem_cons_of_mem p hq, hqc, rfl⟩
        · rintro ⟨q, hq, hqc, rfl⟩
          rcases List.mem_cons.mp hq with rfl | hq'
          · exact List.mem_cons_self _ _
          · exact List.mem_cons_of_mem _ (ih.mpr ⟨q, hq', hqc, rfl⟩)
      · rw [if_neg hc]
        rw [ih]
        constructor
        · rintro ⟨q, hq, hqc, rfl⟩
          exact ⟨q, List.mem_cons_of_mem p hq, hqc, rfl⟩
        · rintro ⟨q, hq, hqc, rfl⟩
          rcases List.mem_cons.mp hq with rfl | hq'
          · exact absurd hqc hc
          · exact ⟨q, hq', hqc, rfl⟩

/-! ## Elementary bounds -/

theorem clip01_nonneg (x : ℝ) : 0 ≤ clip x 0 1 :=
  le_min (le_max_right x 0) zero_le_one

theorem clip01_le_one (x : ℝ) : clip x 0 1 ≤ 1 :=
  min_le_right _ _

theorem clip_eq_self {x lo hi : ℝ} (h1 : lo ≤ x) (h2 : x ≤ hi) :
    clip x lo hi = x := by
  rw [clip, max_eq_left h1, min_eq_left h2]

theorem sigmoid_wind_score_nonneg (v : ℝ) : 0 ≤ sigmoid_wind_score v := by
  rw [sigmoid_wind_score]
  split_ifs with h1 h2
  · exact le_rfl
  · exact zero_le_one
  · positivity

theorem sigmoid_wind_score_le_one (v : ℝ) : sigmoid_wind_score v ≤ 1 := by
  rw [sigmoid_wind_score]
  split_ifs with h1 h2
  · exact zero_le_one
  · exact le_rfl
  · rw [div_le_one (by positivity)]
    nlinarith [Real.exp_pos (-2 * (v - 8))]

theorem variability_bounds (lat lon : ℝ) (wd : List WindSample) :
    0 ≤ calculate_wind_variability_score lat lon wd ∧
      calculate_wind_variability_score lat lon wd ≤ 1 := by
  rw [calculate_wind_variability_score]
  split_ifs <;> norm_num

theorem grid_score_of_dist_bounds (d : ℝ) :
    0 ≤ grid_score_of_dist d ∧ grid_score_of_dist d ≤ 1 :=
  ⟨clip01_nonneg _, clip01_le_one _⟩

theorem env_score_bounds (lat lon : ℝ) (farms : Option (List Geom)) :
    0 ≤ calculate_environmental_score lat lon farms ∧
      calculate_environmental_score lat lon farms ≤ 1 := by
  rcases farms with _ | (_ | ⟨g, rest⟩) <;>
    exact ⟨clip01_nonneg _, clip01_le_one _⟩

theorem offshore_grid_score_bounds (lat lon : ℝ) (subs lines : List Geom) :
    0 ≤ calculate_offshore_grid_score lat lon subs lines ∧
      calculate_offshore_grid_score lat lon subs lines ≤ 1 :=
  ⟨clip01_nonneg _, clip01_le_one _⟩

theorem offshore_env_score_bounds (lat lon : ℝ) (farms : Option (List Geom)) :
    0 ≤ calculate_offshore_environmental_score lat lon farms ∧
      calculate_offshore_environmental_score lat lon farms ≤ 1 := by
  rcases farms with _ | (_ | ⟨g, rest⟩) <;>
    exact ⟨clip01_nonneg _, clip01_le_one _⟩

/-! ## mkZone field lemmas -/

theorem mkZone_latitude (env : Env) (nw : Weights) (t : WFType) (p : ℝ × ℝ) :
    (mkZone env nw t p).latitude = p.1 := rfl

theorem mkZone_longitude (env : Env) (nw : Weights) (t : WFType) (p : ℝ × ℝ) :
    (mkZone env nw t p).longitude = p.2 := rfl

theorem mkZone_wind_score (env : Env) (nw : Weights) (t : WFType) (p : ℝ × ℝ) :
    (mkZone env nw t p).wind_score = calculate_wind_score p.1 p.2 env.wind_data := rfl

theorem mkZone_cf_score (env : Env) (nw : Weights) (t : WFType) (p : ℝ × ℝ) :
    (mkZone env nw t p).capacity_factor_score
      = calculate_capacity_factor_score p.1 p.2 env.wind_data := rfl

theorem mkZone_variability (env : Env) (nw : Weights) (t : WFType) (p : ℝ × ℝ) :
    (mkZone env nw t p).variability_score
      = calculate_wind_variability_score p.1 p.2 env.wind_data := rfl

theorem mkZone_wind_composite (env : Env) (nw : Weights) (t : WFType) (p : ℝ × ℝ) :
    (mkZone env nw t p).wind_composite_score
      = 0.7 * calculate_wind_score p.1 p.2 env.wind_data
        + 0.3 * calculate_wind_variability_score p.1 p.2 env.wind_data := rfl

theorem mkZone_composite (env : Env) (nw : Weights) (t : WFType) (p : ℝ × ℝ) :
    (mkZone env nw t p).composite_score
      = clip (nw.wind * (mkZone env nw t p).wind_composite_score
          + nw.grid * (mkZone env nw t p).grid_score
          + nw.environmental * (mkZone env nw t p).environmental_score) 0 1 := rfl

theorem mkZone_wind_speed (env : Env) (nw : Weights) (t : WFType) (p : ℝ × ℝ) :
    (mkZone env nw t p).wind_speed_mps
      = 5 + calculate_wind_score p.1 p.2 env.wind_data * 7 := rfl

theorem mkZone_grid_distance (env : Env) (nw : Weights) (t : WFType) (p : ℝ × ℝ) :
    (mkZone env nw t p).grid_distance_km = minGeomDistKm env.subs p.1 p.2 := rfl

/-- The grid and environmental score of any record are each of the clipped
`[0,1]` form, whichever branch selected them. -/
theorem mkZone_grid_env_bounds (env : Env) (nw : Weights) (t : WFType) (p : ℝ × ℝ) :
    (0 ≤ (mkZone env nw t p).grid_score ∧ (mkZone env nw t p).grid_score ≤ 1) ∧
      (0 ≤ (mkZone env nw t p).environmental_score ∧
        (mkZone env nw t p).environmental_score ≤ 1) := by
  cases t with
  | Onshore =>
      exact ⟨grid_score_of_dist_bounds _, env_score_bounds p.1 p.2 env.existing_wind_farms⟩
  | Offshore =>
      exact ⟨offshore_grid_score_bounds p.1 p.2 env.subs env.lines,
             offshore_env_score_bounds p.1 p.2 env.existing_wind_farms⟩
  | AutoDetect =>
      cases hdet : determine_onshore_offshore p.1 p.2 with
      | Offshore =>
          simp only [mkZone, hdet]
          exact ⟨offshore_grid_score_bounds p.1 p.2 env.subs env.lines,
                 offshore_env_score_bounds p.1 p.2 env.existing_wind_farms⟩
      | Onshore =>
          simp only [mkZone, hdet]
          exact ⟨grid_score_of_dist_bounds _, env_score_bounds p.1 p.2 env.existing_wind_farms⟩
      | AutoDetect =>
          simp only [mkZone, hdet]
          exact ⟨grid_score_of_dist_bounds _, env_score_bounds p.1 p.2 env.existing_wind_farms⟩

/-! ## Concrete evaluation lemmas -/

/-- Lemma: `np.arange` emits exactly one value when `0 < (stop−start)/step ≤ 1`. -/
theorem arange_singleton {a b s : ℝ} (h0 : 0 < (b - a) / s)
    (h1 : (b - a) / s ≤ 1) : arange a b s = [a] := by
  rw [arange]
  have hc : Nat.ceil ((b - a) / s) = 1 := by
    rw [Nat.ceil_eq_iff one_ne_zero]
    simpa using ⟨h0, h1⟩
  rw [hc, show List.range 1 = [0] from rfl]
  simp

theorem lats_plain : arange 51 55.5 10 = [51] :=
  arange_singleton (by norm_num) (by norm_num)

theorem lons_plain : arange (-11) (-5) 10 = [-11] :=
  arange_singleton (by norm_num) (by norm_num)

theorem gridPoints_single (a b : ℝ) : gridPoints [a] [b] = [(a, b)] := by
  simp [gridPoints]

theorem progressBounds_offshore :
    progressBounds .Offshore = (51.1, 55.4, -10.9, -5.1) := by
  rw [progressBounds]
  norm_num

theorem lats_offshore : arange 51.1 55.4 10 = [51.1] :=
  arange_singleton (by norm_num) (by norm_num)

theorem lons_offshore : arange (-10.9) (-5.1) 10 = [-10.9] :=
  arange_singleton (by norm_num) (by norm_num)

theorem normalizeWeights_w0 : normalizeWeights w0 = some w0 := by
  rw [normalizeWeights, if_neg (by norm_num [w0, Weights.total])]
  norm_num [w0, Weights.total]

theorem normalizeWeights_zero : normalizeWeights ⟨0, 0, 0⟩ = none := by
  rw [normalizeWeights, if_pos]
  norm_num [Weights.total]

theorem matched_sample10 (lat lon : ℝ) :
    matchedWindSpeed lat lon [sample10] = 10 := rfl

theorem wind_score_sample10 (lat lon : ℝ) :
    calculate_wind_score lat lon [sample10] = 1 := by
  rw [calculate_wind_score, matched_sample10, sigmoid_wind_score]
  norm_num

theorem dist_geom0 (lat lon : ℝ) : minGeomDistKm [geom0] lat lon = 0 := by
  simp [minGeomDistKm, geom0]

theorem dist_geom1 (lat lon : ℝ) : minGeomDistKm [geom1] lat lon = 111 := by
  simp [minGeomDistKm, geom1]

theorem acceptCond_envW (minw maxd : ℝ) (hmw : minw ≤ 12) (hmd : 0 ≤ maxd)
    (p : ℝ × ℝ) : acceptCond envW minw maxd p := by
  unfold acceptCond
  rw [show envW.wind_data = [sample10] from rfl,
      show envW.subs = [geom0] from rfl,
      wind_score_sample10, dist_geom0]
  push_neg
  constructor <;> linarith

theorem not_acceptCond_envLine (p : ℝ × ℝ) : ¬acceptCond envLine 6 50 p := by
  unfold acceptCond
  rw [show envLine.subs = [geom1] from rfl, dist_geom1]
  rw [not_not]
  exact Or.inr (by norm_num)

theorem zonesW_eq : calculate_optimal_zones envW 10 6 50 w0 .Onshore = some [zW] := by
  rw [calculate_optimal_zones_eq envW 10 6 50 w0 w0 .Onshore normalizeWeights_w0,
      lats_plain, lons_plain, gridPoints_single, acceptedZones,
      if_pos (acceptCond_envW 6 50 (by norm_num) (by norm_num) (51, -11)),
      acceptedZones]
  rfl

theorem zonesW_offshore_eq :
    calculate_optimal_zones envW 10 6 50 w0 .Offshore
      = some [mkZone envW w0 .Offshore (51, -11)] := by
  rw [calculate_optimal_zones_eq envW 10 6 50 w0 w0 .Offshore normalizeWeights_w0,
      lats_plain, lons_plain, gridPoints_single, acceptedZones,
      if_pos (acceptCond_envW 6 50 (by norm_num) (by norm_num) (51, -11)),
      acceptedZones]

theorem zones_progress_offshore_eq :
    calculate_optimal_zones_with_progress envW 10 6 50 w0 .Offshore none
      = some [mkZone envW w0 .Offshore (51.1, -10.9)] := by
  have hnodup : ((gridPoints
      (arange (progressBounds WFType.Offshore).1
        (progressBounds WFType.Offshore).2.1 10)
      (arange (progressBounds WFType.Offshore).2.2.1
        (progressBounds WFType.Offshore).2.2.2 10)).map
        fun q => cacheKey q.1 q.2).Nodup := by
    simp only [progressBounds_offshore]
    rw [lats_offshore, lons_offshore, gridPoints_single]
    simp
  rw [calculate_optimal_zones_with_progress_eq envW 10 6 50 w0 w0 .Offshore none
        normalizeWeights_w0 hnodup, progressBounds_offshore]
  rw [show ((51.1 : ℝ), (55.4 : ℝ), (-10.9 : ℝ), (-5.1 : ℝ)).1 = 51.1 from rfl]
  rw [lats_offshore, lons_offshore, gridPoints_single, acceptedZones,
      if_pos (acceptCond_envW 6 50 (by norm_num) (by norm_num) (51.1, -10.9)),
      acceptedZones]

theorem zonesLine_eq :
    calculate_optimal_zones envLine 10 6 50 w0 .Onshore = some [] := by
  rw [calculate_optimal_zones_eq envLine 10 6 50 w0 w0 .Onshore normalizeWeights_w0,
      lats_plain, lons_plain, gridPoints_single, acceptedZones,
      if_neg (not_acceptCond_envLine (51, -11))]
  rfl

/-- The loop models the Python `ZeroDivisionError`: an accepted candidate
with zero-sum weights makes the whole scan fail. -/
theorem calculate_optimal_zones_loop_crash (env : Env) (minw maxd : ℝ)
    (w : Weights) (t : WFType) (p : ℝ × ℝ) (rest : List (ℝ × ℝ))
    (hc : acceptCond env minw maxd p) (hw : normalizeWeights w = none) :
    calculate_optimal_zones_loop env minw maxd w t (p :: rest) = none := by
  rw [calculate_optimal_zones_loop.eq_def]
  simp only []
  have hc' := hc
  unfold acceptCond at hc'
  rw [if_neg hc', hw]

/-! ## Claim C1 -/

/-- C1: for every candidate grid point, a Zone record appears in the scan
output if and only if its (reconstructed) wind speed is at least
`min_wind_speed` and its nearest-substation distance is at most
`max_grid_distance`; a candidate failing either condition leaves no record
at all. -/
theorem C1_zone_record_iff_feasible (env : Env)
    (grid_resolution min_wind_speed max_grid_distance : ℝ) (w nw : Weights)
    (t : WFType) (hn : normalizeWeights w = some nw) :
    ∀ p ∈ gridPoints (arange 51 55.5 grid_resolution)
        (arange (-11) (-5) grid_resolution),
      (∃ z ∈ (calculate_optimal_zones env grid_resolution min_wind_speed
            max_grid_distance w t).getD [],
          z.latitude = p.1 ∧ z.longitude = p.2)
        ↔ (min_wind_speed ≤ 5 + calculate_wind_score p.1 p.2 env.wind_data * 7 ∧
            minGeomDistKm env.subs p.1 p.2 ≤ max_grid_distance) := by
  intro p hp
  rw [calculate_optimal_zones_eq env grid_resolution min_wind_speed
        max_grid_distance w nw t hn]
  simp only [Option.getD_some]
  constructor
  · rintro ⟨z, hz, hlat, hlon⟩
    obtain ⟨q, hq, hqc, rfl⟩ := (mem_acceptedZones _ _ _ _ _ _ _).mp hz
    rw [mkZone_latitude] at hlat
    rw [mkZone_longitude] at hlon
    have hqp : q = p := Prod.ext hlat hlon
    rw [hqp] at hqc
    unfold acceptCond at hqc
    push_neg at hqc
    exact hqc
  · intro hacc
    have hc : acceptCond env min_wind_speed max_grid_distance p := by
      unfold acceptCond
      push_neg
      exact hacc
    exact ⟨mkZone env nw t p,
      (mem_acceptedZones _ _ _ _ _ _ _).mpr ⟨p, hp, hc, rfl⟩, rfl, rfl⟩

/-- Witness for C1 at the concrete one-point fixture. -/
theorem C1_zone_record_iff_feasible_witness :
    normalizeWeights w0 = some w0 ∧
    ((51 : ℝ), (-11 : ℝ)) ∈ gridPoints (arange 51 55.5 10) (arange (-11) (-5) 10) ∧
    ((∃ z ∈ (calculate_optimal_zones envW 10 6 50 w0 .Onshore).getD [],
        z.latitude = (((51 : ℝ), (-11 : ℝ)) : ℝ × ℝ).1 ∧
        z.longitude = (((51 : ℝ), (-11 : ℝ)) : ℝ × ℝ).2)
      ↔ (6 ≤ 5 + calculate_wind_score (((51 : ℝ), (-11 : ℝ)) : ℝ × ℝ).1
            (((51 : ℝ), (-11 : ℝ)) : ℝ × ℝ).2 envW.wind_data * 7 ∧
         minGeomDistKm envW.subs (((51 : ℝ), (-11 : ℝ)) : ℝ × ℝ).1
            (((51 : ℝ), (-11 : ℝ)) : ℝ × ℝ).2 ≤ 50)) := by
  have hmem : ((51 : ℝ), (-11 : ℝ)) ∈ gridPoints (arange 51 55.5 10)
      (arange (-11) (-5) 10) := by
    rw [lats_plain, lons_plain, gridPoints_single]
    exact List.mem_singleton.mpr rfl
  exact ⟨normalizeWeights_w0, hmem,
    C1_zone_record_iff_feasible envW 10 6 50 w0 w0 .Onshore normalizeWeights_w0
      (51, -11) hmem⟩

/-! ## Claim C2 -/

/-- C2 counterexample: with supplied weights summing to zero the scan does
not fall back to the default weights — it fails (the Python code raises
`ZeroDivisionError`, modelled as `none`) as soon as a candidate passes the
feasibility filter. -/
theorem C2_counterexample :
    calculate_optimal_zones envW 10 6 50 ⟨0, 0, 0⟩ .Onshore = none := by
  simp only [calculate_optimal_zones, lats_plain, lons_plain, gridPoints_single]
  rw [calculate_optimal_zones_loop_crash envW 6 50 ⟨0, 0, 0⟩ .Onshore (51, -11) []
      (acceptCond_envW 6 50 (by norm_num) (by norm_num) (51, -11))
      normalizeWeights_zero]
  rfl

/-- C2 (amended): the ranker normalizes the supplied weights by their sum
and combines the three sub-scores with the normalized weights (clipped to
`[0,1]`); when the sum is zero the ranker itself fails rather than
defaulting — the `{0.5, 0.3, 0.2}` zero-sum fallback is applied by the UI
layer (`optimal_zones_viz`) before the ranker is invoked. -/
theorem C2_weight_normalization_amended :
    (∀ w : Weights, w.total ≠ 0 →
      normalizeWeights w
        = some ⟨w.wind / w.total, w.grid / w.total, w.environmental / w.total⟩) ∧
    (∀ (env : Env) (grid_resolution min_wind_speed max_grid_distance : ℝ)
        (w nw : Weights) (t : WFType), normalizeWeights w = some nw →
      ∀ z ∈ (calculate_optimal_zones env grid_resolution min_wind_speed
          max_grid_distance w t).getD [],
        z.composite_score
          = clip (nw.wind * z.wind_composite_score + nw.grid * z.grid_score
              + nw.environmental * z.environmental_score) 0 1) ∧
    normalize_weights_ui 0 0 0 = ⟨0.5, 0.3, 0.2⟩ := by
  refine ⟨fun w h => by rw [normalizeWeights, if_neg h], ?_,
    by norm_num [normalize_weights_ui]⟩
  intro env res minw maxd w nw t hn z hz
  rw [calculate_optimal_zones_eq env res minw maxd w nw t hn] at hz
  simp only [Option.getD_some] at hz
  obtain ⟨p, hp, hc, rfl⟩ := (mem_acceptedZones _ _ _ _ _ _ _).mp hz
  exact mkZone_composite env nw t p

/-- Witness for the amended C2 at the concrete fixture. -/
theorem C2_weight_normalization_amended_witness :
    w0.total ≠ 0 ∧
    normalizeWeights w0
      = some ⟨w0.wind / w0.total, w0.grid / w0.total, w0.environmental / w0.total⟩ ∧
    zW.composite_score
      = clip (w0.wind * zW.wind_composite_score + w0.grid * zW.grid_score
          + w0.environmental * zW.environmental_score) 0 1 := by
  have ht : w0.total ≠ 0 := by norm_num [w0, Weights.total]
  refine ⟨ht, C2_weight_normalization_amended.1 w0 ht, ?_⟩
  refine C2_weight_normalization_amended.2.1 envW 10 6 50 w0 w0 .Onshore
    normalizeWeights_w0 zW ?_
  rw [zonesW_eq]
  simp

/-! ## Claim C3 -/

/-- C3 counterexample: for `wind_farm_type = "Offshore"` the two scans
disagree on identical configurations — the progress-reporting scan shrinks
the analysis grid by the 0.1° offshore buffer, so its candidate set (and
here its output) differs from the plain scan's. -/
theorem C3_counterexample :
    calculate_optimal_zones_with_progress envW 10 6 50 w0 .Offshore none
      ≠ calculate_optimal_zones envW 10 6 50 w0 .Offshore := by
  rw [zones_progress_offshore_eq, zonesW_offshore_eq]
  intro h
  injection h with h'
  simp only [List.cons.injEq, and_true] at h'
  have h3 := congrArg Zone.latitude h'
  rw [mkZone_latitude, mkZone_latitude] at h3
  norm_num at h3

/-- The lossy 3-decimal cache key aliases points 0.0002° apart. -/
theorem round3_alias : round3 51.0002 = round3 51.0004 := by
  rw [round3, round3, round_eq, round_eq,
      show (51.0002 : ℝ) * 1000 + 1 / 2 = 51000.7 by norm_num,
      show (51.0004 : ℝ) * 1000 + 1 / 2 = 51000.9 by norm_num,
      show (⌊(51000.7 : ℝ)⌋ : ℤ) = 51000 by
        rw [Int.floor_eq_iff]
        constructor <;> norm_num,
      show (⌊(51000.9 : ℝ)⌋ : ℤ) = 51000 by
        rw [Int.floor_eq_iff]
        constructor <;> norm_num]

/-- C3 (amended): for every configuration whose `wind_farm_type` is not
`"Offshore"` (i.e. `"Onshore"` or `"Auto-Detect"`), and for every progress
callback including `None`, the plain scan and the progress-reporting scan
compute exactly the same accepted Zone records with the same score vectors
— provided the progress scan's lossy 3-decimal `grid_distance_cache` key
does not alias distinct candidate points (their keys are pairwise
distinct, which holds at the supported resolutions but fails below 0.001°,
as the second conjunct shows on points 0.0002° apart); the callback never
changes the scan outcome. For `"Offshore"` the two scans run over different
candidate grids and can differ. -/
theorem C3_progress_plain_equivalence_amended :
    (∀ (env : Env) (grid_resolution min_wind_speed max_grid_distance : ℝ)
      (w : Weights) (t : WFType) (cb : Option (ℝ → String → Unit)),
      t ≠ .Offshore →
      ((gridPoints (arange 51 55.5 grid_resolution)
          (arange (-11) (-5) grid_resolution)).map
        fun q => cacheKey q.1 q.2).Nodup →
      calculate_optimal_zones_with_progress env grid_resolution min_wind_speed
          max_grid_distance w t cb
        = calculate_optimal_zones env grid_resolution min_wind_speed
            max_grid_distance w t) ∧
    (cacheKey 51.0002 (-11) = cacheKey 51.0004 (-11) ∧
      ((51.0002 : ℝ), (-11 : ℝ)) ≠ ((51.0004 : ℝ), (-11 : ℝ))) := by
  refine ⟨?_, ?_, ?_⟩
  · intro env res minw maxd w t cb ht hnodup
    have hb : progressBounds t = (51, 55.5, -11, -5) := by
      cases t with
      | Offshore => exact absurd rfl ht
      | Onshore => rfl
      | AutoDetect => rfl
    simp only [calculate_optimal_zones_with_progress, calculate_optimal_zones, hb]
    rw [progress_loop_eq_plain_loop env minw maxd w t
          (gridPoints (arange 51 55.5 res) (arange (-11) (-5) res)) []
          (fun q _ => rfl) hnodup]
  · simp only [cacheKey, round3_alias]
  · intro h
    have h1 := congrArg Prod.fst h
    norm_num at h1

/-- Witness for the amended C3 at the concrete fixture. -/
theorem C3_progress_plain_equivalence_amended_witness :
    (WFType.Onshore ≠ WFType.Offshore) ∧
    ((gridPoints (arange 51 55.5 10) (arange (-11) (-5) 10)).map
        fun q => cacheKey q.1 q.2).Nodup ∧
    calculate_optimal_zones_with_progress envW 10 6 50 w0 .Onshore none
      = calculate_optimal_zones envW 10 6 50 w0 .Onshore := by
  have hnd : ((gridPoints (arange 51 55.5 10) (arange (-11) (-5) 10)).map
      fun q => cacheKey q.1 q.2).Nodup := by
    rw [lats_plain, lons_plain, gridPoints_single]
    simp
  exact ⟨by simp, hnd,
    C3_progress_plain_equivalence_amended.1 envW 10 6 50 w0 .Onshore none
      (by simp) hnd⟩

/-! ## Claim C5 -/

/-- First-match rank characterisation: `Excellent` exactly on its rule. -/
theorem categorize_rank3 (c w d : ℝ) :
    3 ≤ catRank (categorize_zone c w d) ↔ (c ≥ 0.8 ∧ w ≥ 8.5 ∧ d ≤ 15) := by
  rw [categorize_zone]
  split_ifs with h1 h2 h3
  · exact iff_of_true (by norm_num [catRank]) h1
  · exact iff_of_false (by norm_num [catRank]) h1
  · exact iff_of_false (by norm_num [catRank]) h1
  · exact iff_of_false (by norm_num [catRank]) h1

/-- Rank at least `Good` exactly on the `Good` rule (the rules are nested:
the `Excellent` thresholds imply the `Good` ones). -/
theorem categorize_rank2 (c w d : ℝ) :
    2 ≤ catRank (categorize_zone c w d) ↔ (c ≥ 0.65 ∧ w ≥ 7.5 ∧ d ≤ 25) := by
  rw [categorize_zone]
  split_ifs with h1 h2 h3
  · exact iff_of_true (by norm_num [catRank])
      ⟨by linarith [h1.1], by linarith [h1.2.1], by linarith [h1.2.2]⟩
  · exact iff_of_true (by norm_num [catRank]) h2
  · exact iff_of_false (by norm_num [catRank]) h2
  · exact iff_of_false (by norm_num [catRank]) h2

/-- Rank at least `Moderate` exactly on the `Moderate` rule. -/
theorem categorize_rank1 (c w d : ℝ) :
    1 ≤ catRank (categorize_zone c w d) ↔ (c ≥ 0.45 ∧ w ≥ 6.5 ∧ d ≤ 35) := by
  rw [categorize_zone]
  split_ifs with h1 h2 h3
  · exact iff_of_true (by norm_num [catRank])
      ⟨by linarith [h1.1], by linarith [h1.2.1], by linarith [h1.2.2]⟩
  · exact iff_of_true (by norm_num [catRank])
      ⟨by linarith [h2.1], by linarith [h2.2.1], by linarith [h2.2.2]⟩
  · exact iff_of_true (by norm_num [catRank]) h3
  · exact iff_of_false (by norm_num [catRank]) h3

/-- C5: `categorize_zone` is monotone — raising the composite score and the
wind speed and lowering the grid distance can only keep or improve the
category in the order Excellent > Good > Moderate > Marginal — and it is a
strict first-match-wins partition: each input gets the unique first matching
rule. -/
theorem C5_categorize_monotone_partition :
    (∀ c1 w1 d1 c2 w2 d2 : ℝ, c1 ≤ c2 → w1 ≤ w2 → d2 ≤ d1 →
      catRank (categorize_zone c1 w1 d1) ≤ catRank (categorize_zone c2 w2 d2)) ∧
    (∀ c w d : ℝ,
      (categorize_zone c w d = .Excellent ↔ (c ≥ 0.8 ∧ w ≥ 8.5 ∧ d ≤ 15)) ∧
      (categorize_zone c w d = .Good
        ↔ (¬(c ≥ 0.8 ∧ w ≥ 8.5 ∧ d ≤ 15) ∧ (c ≥ 0.65 ∧ w ≥ 7.5 ∧ d ≤ 25))) ∧
      (categorize_zone c w d = .Moderate
        ↔ (¬(c ≥ 0.8 ∧ w ≥ 8.5 ∧ d ≤ 15) ∧ ¬(c ≥ 0.65 ∧ w ≥ 7.5 ∧ d ≤ 25) ∧
           (c ≥ 0.45 ∧ w ≥ 6.5 ∧ d ≤ 35))) ∧
      (categorize_zone c w d = .Marginal
        ↔ (¬(c ≥ 0.8 ∧ w ≥ 8.5 ∧ d ≤ 15) ∧ ¬(c ≥ 0.65 ∧ w ≥ 7.5 ∧ d ≤ 25) ∧
           ¬(c ≥ 0.45 ∧ w ≥ 6.5 ∧ d ≤ 35)))) := by
  constructor
  · intro c1 w1 d1 c2 w2 d2 hc hw hd
    cases h : categorize_zone c1 w1 d1 with
    | Excellent =>
        have h1 := (categorize_rank3 c1 w1 d1).mp (by rw [h]; norm_num [catRank])
        exact (categorize_rank3 c2 w2 d2).mpr
          ⟨by linarith [h1.1], by linarith [h1.2.1], by linarith [h1.2.2]⟩
    | Good =>
        have h1 := (categorize_rank2 c1 w1 d1).mp (by rw [h]; norm_num [catRank])
        exact (categorize_rank2 c2 w2 d2).mpr
          ⟨by linarith [h1.1], by linarith [h1.2.1], by linarith [h1.2.2]⟩
    | Moderate =>
        have h1 := (categorize_rank1 c1 w1 d1).mp (by rw [h]; norm_num [catRank])
        exact (categorize_rank1 c2 w2 d2).mpr
          ⟨by linarith [h1.1], by linarith [h1.2.1], by linarith [h1.2.2]⟩
    | Marginal =>
        exact Nat.zero_le _
  · intro c w d
    rw [categorize_zone]
    split_ifs with h1 h2 h3
    · exact ⟨iff_of_true rfl h1,
        iff_of_false (by decide) (fun hcon => hcon.1 h1),
        iff_of_false (by decide) (fun hcon => hcon.1 h1),
        iff_of_false (by decide) (fun hcon => hcon.1 h1)⟩
    · exact ⟨iff_of_false (by decide) h1,
        iff_of_true rfl ⟨h1, h2⟩,
        iff_of_false (by decide) (fun hcon => hcon.2.1 h2),
        iff_of_false (by decide) (fun hcon => hcon.2.1 h2)⟩
    · exact ⟨iff_of_false (by decide) h1,
        iff_of_false (by decide) (fun hcon => h2 hcon.2),
        iff_of_true rfl ⟨h1, h2, h3⟩,
        iff_of_false (by decide) (fun hcon => hcon.2.2 h3)⟩
    · exact ⟨iff_of_false (by decide) h1,
        iff_of_false (by decide) (fun hcon => h2 hcon.2),
        iff_of_false (by decide) (fun hcon => h3 hcon.2.2),
        iff_of_true rfl ⟨h1, h2, h3⟩⟩

/-- Witness for C5: a dominated pair and a concrete categorisation. -/
theorem C5_categorize_monotone_partition_witness :
    ((0.5 : ℝ) ≤ 0.9 ∧ (7 : ℝ) ≤ 9 ∧ (10 : ℝ) ≤ 30) ∧
    catRank (categorize_zone 0.5 7 30) ≤ catRank (categorize_zone 0.9 9 10) ∧
    (categorize_zone 0.9 9 10 = .Excellent
      ↔ ((0.9 : ℝ) ≥ 0.8 ∧ (9 : ℝ) ≥ 8.5 ∧ (10 : ℝ) ≤ 15)) :=
  ⟨⟨by norm_num, by norm_num, by norm_num⟩,
   C5_categorize_monotone_partition.1 0.5 7 30 0.9 9 10 (by norm_num) (by norm_num)
     (by norm_num),
   (C5_categorize_monotone_partition.2 0.9 9 10).1⟩

/-! ## Claim C6 -/

/-- C6: the wind score as a function of the matched wind speed `v`: zero
below 6 m/s, one from 10 m/s, the logistic `1/(1+e^(-2(v-8)))` in between;
monotonically non-decreasing; and the three pinned values 5.9 ↦ 0, 8 ↦ 0.5,
10 ↦ 1. The scan's `calculate_wind_score` is exactly this function of the
matched sample speed. -/
theorem C6_wind_score_shape :
    (∀ v : ℝ, v < 6 → sigmoid_wind_score v = 0) ∧
    (∀ v : ℝ, 10 ≤ v → sigmoid_wind_score v = 1) ∧
    (∀ v : ℝ, 6 ≤ v → v < 10 →
      sigmoid_wind_score v = 1 / (1 + Real.exp (-2 * (v - 8)))) ∧
    Monotone sigmoid_wind_score ∧
    sigmoid_wind_score 5.9 = 0 ∧
    sigmoid_wind_score 8 = 0.5 ∧
    sigmoid_wind_score 10 = 1 ∧
    (∀ (lat lon : ℝ) (wd : List WindSample),
      calculate_wind_score lat lon wd
        = sigmoid_wind_score (matchedWindSpeed lat lon wd)) := by
  refine ⟨?_, ?_, ?_, ?_, ?_, ?_, ?_, fun _ _ _ => rfl⟩
  · intro v hv
    rw [sigmoid_wind_score, if_pos hv]
  · intro v hv
    rw [sigmoid_wind_score, if_neg (by linarith), if_pos hv]
  · intro v h6 h10
    rw [sigmoid_wind_score, if_neg (by linarith), if_neg (by linarith)]
  · intro a b hab
    have ea := Real.exp_pos (-2 * (a - 8))
    have eb := Real.exp_pos (-2 * (b - 8))
    have hm : Real.exp (-2 * (b - 8)) ≤ Real.exp (-2 * (a - 8)) :=
      Real.exp_le_exp.mpr (by linarith)
    rw [sigmoid_wind_score, sigmoid_wind_score]
    split_ifs <;>
      first
        | linarith
        | positivity
        | (rw [div_le_one (by linarith)]; linarith)
        | (apply one_div_le_one_div_of_le <;> linarith)
  · rw [sigmoid_wind_score, if_pos (by norm_num)]
  · rw [sigmoid_wind_score, if_neg (by norm_num), if_neg (by norm_num)]
    norm_num [Real.exp_zero]
  · rw [sigmoid_wind_score, if_neg (by norm_num), if_pos (by norm_num)]

/-- Witness for C6 at concrete speeds. -/
theorem C6_wind_score_shape_witness :
    sigmoid_wind_score 3 = 0 ∧
    sigmoid_wind_score 11 = 1 ∧
    sigmoid_wind_score 7 = 1 / (1 + Real.exp (-2 * (7 - 8))) ∧
    sigmoid_wind_score 7 ≤ sigmoid_wind_score 9 :=
  ⟨C6_wind_score_shape.1 3 (by norm_num),
   C6_wind_score_shape.2.1 11 (by norm_num),
   C6_wind_score_shape.2.2.1 7 (by norm_num) (by norm_num),
   C6_wind_score_shape.2.2.2.1 (by norm_num)⟩

/-! ## Claim C7 -/

/-- C7: the default turbine power curve (cut-in 3, rated 12, cut-out 25,
rated power 3 MW) outputs 0 for `v ≤ 3` and for `v ≥ 25`, follows the cubic
ramp and is strictly increasing on `[3, 12)`, holds rated power on
`[12, 25)`, and the capacity factor is the mean of the hourly powers divided
by rated power, clamped to `[0, 0.55]`. -/
theorem C7_power_curve_and_cf :
    (∀ v : ℝ, v ≤ 3 → power_output v 3 12 25 3000000 = 0) ∧
    (∀ v : ℝ, 25 ≤ v → power_output v 3 12 25 3000000 = 0) ∧
    (∀ v : ℝ, 3 ≤ v → v < 12 →
      power_output v 3 12 25 3000000 = 3000000 * ((v - 3) / 9) ^ 3) ∧
    (∀ v1 v2 : ℝ, 3 ≤ v1 → v1 < v2 → v2 < 12 →
      power_output v1 3 12 25 3000000 < power_output v2 3 12 25 3000000) ∧
    (∀ v : ℝ, 12 ≤ v → v < 25 → power_output v 3 12 25 3000000 = 3000000) ∧
    (∀ series : List ℝ,
      compute_cf_2019 series 3000000 none
        = clip (list_mean (series.map fun v => power_output v 3 12 25 3000000)
            / 3000000) 0 0.55) := by
  have hramp : ∀ v : ℝ, 3 ≤ v → v < 12 →
      power_output v 3 12 25 3000000 = 3000000 * ((v - 3) / 9) ^ 3 := by
    intro v ha hb
    rw [power_output, if_pos ⟨ha, hb⟩]
    norm_num
  refine ⟨?_, ?_, hramp, ?_, ?_, fun _ => rfl⟩
  · intro v hv
    rw [power_output]
    split_ifs with ha hb
    · have hv3 : v = 3 := le_antisymm hv ha.1
      rw [hv3]
      norm_num
    · exact absurd hb.1 (by linarith)
    · rfl
  · intro v hv
    rw [power_output]
    split_ifs with ha hb
    · exact absurd ha.2 (by linarith)
    · exact absurd hb.2 (by linarith)
    · rfl
  · intro v1 v2 h1 h2 h3
    rw [hramp v1 h1 (by linarith), hramp v2 (by linarith) h3]
    have hx : (v1 - 3) / 9 < (v2 - 3) / 9 :=
      (div_lt_div_iff_of_pos_right (by norm_num)).mpr (by linarith)
    have hx0 : 0 ≤ (v1 - 3) / 9 := div_nonneg (by linarith) (by norm_num)
    have hp := pow_lt_pow_left₀ hx hx0 (three_ne_zero)
    linarith
  · intro v hv hv'
    rw [power_output]
    split_ifs with ha hb
    · exact absurd ha.2 (by linarith)
    · rfl
    · exact absurd ⟨hv, hv'⟩ hb

/-- Witness for C7 at concrete speeds and a concrete hourly series. -/
theorem C7_power_curve_and_cf_witness :
    power_output 2 3 12 25 3000000 = 0 ∧
    power_output 30 3 12 25 3000000 = 0 ∧
    power_output 5 3 12 25 3000000 = 3000000 * (((5 : ℝ) - 3) / 9) ^ 3 ∧
    power_output 5 3 12 25 3000000 < power_output 7 3 12 25 3000000 ∧
    power_output 15 3 12 25 3000000 = 3000000 ∧
    compute_cf_2019 [10] 3000000 none
      = clip (list_mean ([(10 : ℝ)].map fun v => power_output v 3 12 25 3000000)
          / 3000000) 0 0.55 :=
  ⟨C7_power_curve_and_cf.1 2 (by norm_num),
   C7_power_curve_and_cf.2.1 30 (by norm_num),
   C7_power_curve_and_cf.2.2.1 5 (by norm_num) (by norm_num),
   C7_power_curve_and_cf.2.2.2.1 5 7 (by norm_num) (by norm_num) (by norm_num),
   C7_power_curve_and_cf.2.2.2.2.1 15 (by norm_num) (by norm_num),
   C7_power_curve_and_cf.2.2.2.2.2 [10]⟩

/-! ## Claim C4 -/

/-- C4: for every accepted Zone (under nonnegative supplied weights with
positive sum, as the UI guarantees), the composite score and every sub-score
lie in `[0,1]`, and the composite score is a convex combination of the
normalized weights with the three sub-scores. -/
theorem C4_scores_unit_interval_convex (env : Env)
    (grid_resolution min_wind_speed max_grid_distance : ℝ) (w : Weights)
    (t : WFType) (hw1 : 0 ≤ w.wind) (hw2 : 0 ≤ w.grid)
    (hw3 : 0 ≤ w.environmental) (hw4 : 0 < w.total) :
    ∀ z ∈ (calculate_optimal_zones env grid_resolution min_wind_speed
        max_grid_distance w t).getD [],
      (0 ≤ z.wind_score ∧ z.wind_score ≤ 1) ∧
      (0 ≤ z.capacity_factor_score ∧ z.capacity_factor_score ≤ 1) ∧
      (0 ≤ z.variability_score ∧ z.variability_score ≤ 1) ∧
      (0 ≤ z.wind_composite_score ∧ z.wind_composite_score ≤ 1) ∧
      (0 ≤ z.grid_score ∧ z.grid_score ≤ 1) ∧
      (0 ≤ z.environmental_score ∧ z.environmental_score ≤ 1) ∧
      (0 ≤ z.composite_score ∧ z.composite_score ≤ 1) ∧
      (∃ a b c : ℝ, 0 ≤ a ∧ 0 ≤ b ∧ 0 ≤ c ∧ a + b + c = 1 ∧
        z.composite_score
          = a * z.wind_composite_score + b * z.grid_score
            + c * z.environmental_score) := by
  intro z hz
  have hn : normalizeWeights w = some (normWeights w) := by
    rw [normalizeWeights, if_neg (ne_of_gt hw4)]
    rfl
  rw [calculate_optimal_zones_eq env grid_resolution min_wind_speed
        max_grid_distance w (normWeights w) t hn] at hz
  simp only [Option.getD_some] at hz
  obtain ⟨p, hp, hc, rfl⟩ := (mem_acceptedZones _ _ _ _ _ _ _).mp hz
  have hws : 0 ≤ calculate_wind_score p.1 p.2 env.wind_data ∧
      calculate_wind_score p.1 p.2 env.wind_data ≤ 1 :=
    ⟨sigmoid_wind_score_nonneg _, sigmoid_wind_score_le_one _⟩
  have hvs := variability_bounds p.1 p.2 env.wind_data
  have hge := mkZone_grid_env_bounds env (normWeights w) t p
  have hwc : 0 ≤ (mkZone env (normWeights w) t p).wind_composite_score ∧
      (mkZone env (normWeights w) t p).wind_composite_score ≤ 1 := by
    rw [mkZone_wind_composite]
    constructor <;> nlinarith [hws.1, hws.2, hvs.1, hvs.2]
  have ha : 0 ≤ (normWeights w).wind := div_nonneg hw1 (le_of_lt hw4)
  have hb : 0 ≤ (normWeights w).grid := div_nonneg hw2 (le_of_lt hw4)
  have hcc : 0 ≤ (normWeights w).environmental := div_nonneg hw3 (le_of_lt hw4)
  have habc : (normWeights w).wind + (normWeights w).grid
      + (normWeights w).environmental = 1 := by
    show w.wind / w.total + w.grid / w.total + w.environmental / w.total = 1
    rw [div_add_div_same, div_add_div_same]
    exact div_self (ne_of_gt hw4)
  have hsum0 : 0 ≤ (normWeights w).wind
        * (mkZone env (normWeights w) t p).wind_composite_score
      + (normWeights w).grid * (mkZone env (normWeights w) t p).grid_score
      + (normWeights w).environmental
        * (mkZone env (normWeights w) t p).environmental_score := by
    have t1 := mul_nonneg ha hwc.1
    have t2 := mul_nonneg hb hge.1.1
    have t3 := mul_nonneg hcc hge.2.1
    linarith
  have hsum1 : (normWeights w).wind
        * (mkZone env (normWeights w) t p).wind_composite_score
      + (normWeights w).grid * (mkZone env (normWeights w) t p).grid_score
      + (normWeights w).environmental
        * (mkZone env (normWeights w) t p).environmental_score ≤ 1 := by
    have t1 := mul_le_of_le_one_right ha hwc.2
    have t2 := mul_le_of_le_one_right hb hge.1.2
    have t3 := mul_le_of_le_one_right hcc hge.2.2
    linarith
  refine ⟨by rw [mkZone_wind_score]; exact hws,
    by rw [mkZone_cf_score]; exact ⟨clip01_nonneg _, clip01_le_one _⟩,
    by rw [mkZone_variability]; exact hvs,
    hwc, hge.1, hge.2,
    by rw [mkZone_composite]; exact ⟨clip01_nonneg _, clip01_le_one _⟩,
    ⟨(normWeights w).wind, (normWeights w).grid, (normWeights w).environmental,
      ha, hb, hcc, habc, by rw [mkZone_composite, clip_eq_self hsum0 hsum1]⟩⟩

/-- Witness for C4 at the concrete fixture zone. -/
theorem C4_scores_unit_interval_convex_witness :
    (0 ≤ w0.wind ∧ 0 ≤ w0.grid ∧ 0 ≤ w0.environmental ∧ 0 < w0.total) ∧
    ((0 ≤ zW.wind_score ∧ zW.wind_score ≤ 1) ∧
     (0 ≤ zW.capacity_factor_score ∧ zW.capacity_factor_score ≤ 1) ∧
     (0 ≤ zW.variability_score ∧ zW.variability_score ≤ 1) ∧
     (0 ≤ zW.wind_composite_score ∧ zW.wind_composite_score ≤ 1) ∧
     (0 ≤ zW.grid_score ∧ zW.grid_score ≤ 1) ∧
     (0 ≤ zW.environmental_score ∧ zW.environmental_score ≤ 1) ∧
     (0 ≤ zW.composite_score ∧ zW.composite_score ≤ 1) ∧
     (∃ a b c : ℝ, 0 ≤ a ∧ 0 ≤ b ∧ 0 ≤ c ∧ a + b + c = 1 ∧
       zW.composite_score
         = a * zW.wind_composite_score + b * zW.grid_score
           + c * zW.environmental_score)) :=
  ⟨⟨by norm_num [w0], by norm_num [w0], by norm_num [w0],
    by norm_num [w0, Weights.total]⟩,
   C4_scores_unit_interval_convex envW 10 6 50 w0 .Onshore
     (by norm_num [w0]) (by norm_num [w0]) (by norm_num [w0])
     (by norm_num [w0, Weights.total]) zW (by rw [zonesW_eq]; simp)⟩

/-! ## Claim C9 -/

/-- C9: every accepted Zone stores `wind_speed_mps = 5 + 7·wind_score` —
the value also used by the feasibility test and categorisation — so it
always lies in `[5, 12]`; and it generally differs from the matched wind
sample's actual speed (at the concrete fixture the matched speed is 10 m/s
but the stored value is 12 m/s). -/
theorem C9_reconstructed_wind_speed :
    (∀ (env : Env) (grid_resolution min_wind_speed max_grid_distance : ℝ)
        (w nw : Weights) (t : WFType), normalizeWeights w = some nw →
      ∀ z ∈ (calculate_optimal_zones env grid_resolution min_wind_speed
          max_grid_distance w t).getD [],
        z.wind_speed_mps = 5 + z.wind_score * 7 ∧
        5 ≤ z.wind_speed_mps ∧ z.wind_speed_mps ≤ 12) ∧
    (∃ z ∈ (calculate_optimal_zones envW 10 6 50 w0 .Onshore).getD [],
      z.wind_speed_mps ≠ matchedWindSpeed z.latitude z.longitude envW.wind_data) := by
  constructor
  · intro env res minw maxd w nw t hn z hz
    rw [calculate_optimal_zones_eq env res minw maxd w nw t hn] at hz
    simp only [Option.getD_some] at hz
    obtain ⟨p, hp, hc, rfl⟩ := (mem_acceptedZones _ _ _ _ _ _ _).mp hz
    have hs0 := sigmoid_wind_score_nonneg (matchedWindSpeed p.1 p.2 env.wind_data)
    have hs1 := sigmoid_wind_score_le_one (matchedWindSpeed p.1 p.2 env.wind_data)
    refine ⟨by rw [mkZone_wind_speed, mkZone_wind_score], ?_, ?_⟩
    · rw [mkZone_wind_speed]
      have : (0 : ℝ) ≤ calculate_wind_score p.1 p.2 env.wind_data := hs0
      linarith
    · rw [mkZone_wind_speed]
      have : calculate_wind_score p.1 p.2 env.wind_data ≤ 1 := hs1
      linarith
  · refine ⟨zW, by rw [zonesW_eq]; simp, ?_⟩
    have h1 : zW.wind_speed_mps = 12 := by
      rw [show zW.wind_speed_mps
            = 5 + calculate_wind_score 51 (-11) envW.wind_data * 7 from rfl]
      rw [show envW.wind_data = [sample10] from rfl, wind_score_sample10]
      norm_num
    have h2 : matchedWindSpeed zW.latitude zW.longitude envW.wind_data = 10 := rfl
    rw [h1, h2]
    norm_num

/-- Witness for the universally-quantified part of C9 at the fixture. -/
theorem C9_reconstructed_wind_speed_witness :
    normalizeWeights w0 = some w0 ∧
    (zW.wind_speed_mps = 5 + zW.wind_score * 7 ∧
      5 ≤ zW.wind_speed_mps ∧ zW.wind_speed_mps ≤ 12) :=
  ⟨normalizeWeights_w0,
   C9_reconstructed_wind_speed.1 envW 10 6 50 w0 w0 .Onshore normalizeWeights_w0
     zW (by rw [zonesW_eq]; simp)⟩

/-! ## Claim C10 -/

/-- C10: every accepted Zone's `grid_distance_km` — the value tested against
`max_grid_distance`, categorised on, and reported — is the 111-scaled
distance to the nearest *substation* only, while `grid_score` is computed
from the minimum of the substation and line distances; hence a candidate at
distance 0 from a line but 111 km from every substation has `grid_score = 1`
yet is rejected under `max_grid_distance = 50`. -/
theorem C10_grid_distance_substations_only :
    (∀ (env : Env) (grid_resolution min_wind_speed max_grid_distance : ℝ)
        (w nw : Weights) (t : WFType), normalizeWeights w = some nw →
      ∀ z ∈ (calculate_optimal_zones env grid_resolution min_wind_speed
          max_grid_distance w t).getD [],
        z.grid_distance_km = minGeomDistKm env.subs z.latitude z.longitude) ∧
    (∀ (lat lon : ℝ) (subs lines : List Geom),
      calculate_grid_score lat lon subs lines
        = grid_score_of_dist
            (min (minGeomDistKm subs lat lon) (minGeomDistKm lines lat lon))) ∧
    (minGeomDistKm envLine.subs 51 (-11) = 111 ∧
     minGeomDistKm envLine.lines 51 (-11) = 0 ∧
     calculate_grid_score 51 (-11) envLine.subs envLine.lines = 1 ∧
     calculate_optimal_zones envLine 10 6 50 w0 .Onshore = some []) := by
  refine ⟨?_, fun _ _ _ _ => rfl, ?_⟩
  · intro env res minw maxd w nw t hn z hz
    rw [calculate_optimal_zones_eq env res minw maxd w nw t hn] at hz
    simp only [Option.getD_some] at hz
    obtain ⟨p, hp, hc, rfl⟩ := (mem_acceptedZones _ _ _ _ _ _ _).mp hz
    rw [mkZone_grid_distance, mkZone_latitude, mkZone_longitude]
  · refine ⟨dist_geom1 51 (-11), dist_geom0 51 (-11), ?_, zonesLine_eq⟩
    rw [show envLine.subs = [geom1] from rfl, show envLine.lines = [geom0] from rfl,
        calculate_grid_score, dist_geom1, dist_geom0]
    rw [show min (111 : ℝ) 0 = 0 by norm_num]
    rw [grid_score_of_dist, if_pos (by norm_num)]
    rw [clip_eq_self (by norm_num) (by norm_num)]

/-- Witness for the universally-quantified part of C10 at the fixture. -/
theorem C10_grid_distance_substations_only_witness :
    normalizeWeights w0 = some w0 ∧
    zW.grid_distance_km = minGeomDistKm envW.subs zW.latitude zW.longitude :=
  ⟨normalizeWeights_w0,
   C10_grid_distance_substations_only.1 envW 10 6 50 w0 w0 .Onshore
     normalizeWeights_w0 zW (by rw [zonesW_eq]; simp)⟩

/-! ## k-means lemmas for Claim C8 -/

/-- One unfolding of the bounded k-means iteration. -/
theorem kmeansLoop_succ (coords : List (ℝ × ℝ)) (k : ℕ) (tol : ℝ)
    (fuel : ℕ) (centroids : List (ℝ × ℝ)) (labels : List ℕ) :
    kmeansLoop coords k tol (fuel + 1) centroids labels
      = (let labels' := coords.map fun p =>
            argminIdx (centroids.map fun c => euclid p c)
         let new_centroids := (List.range k).map fun j =>
            clusterMean coords labels' j
         if allclose centroids new_centroids tol then (labels', centroids)
         else kmeansLoop coords k tol fuel new_centroids labels') := rfl

/-- Lemma: `np.argmin` of a one-element distance list is 0. -/
theorem argminIdx_singleton (d : ℝ) : argminIdx [d] = 0 := rfl

/-- With a single centroid, `np.argmin` labels every point 0. -/
theorem map_argmin_singleton (coords : List (ℝ × ℝ)) (c : ℝ × ℝ) :
    (coords.map fun p => argminIdx [euclid p c])
      = List.replicate coords.length 0 := by
  induction coords with
  | nil => rfl
  | cons p rest ih =>
      rw [List.map_cons, ih, List.length_cons, List.replicate_succ]
      exact rfl

/-- The mean of cluster 0 when every point is labelled 0 is the mean of all
points. -/
theorem clusterMean_zero (l : List (ℝ × ℝ)) :
    clusterMean l (List.replicate l.length 0) 0 = meanPoint l := by
  rw [clusterMean, meanPoint]
  have h : ((l.zip (List.replicate l.length 0)).filter
      fun pl => pl.2 == 0).map (·.1) = l := by
    induction l with
    | nil => rfl
    | cons a rest ih =>
        rw [List.length_cons, List.replicate_succ, List.zip_cons_cons,
            List.filter_cons_of_pos (by rfl), List.map_cons, ih]
  rw [h]

/-- Lemma: `clusterMean` on a singleton, label list `[0]`. -/
theorem clusterMean_single (p : ℝ × ℝ) :
    clusterMean [p] [0] 0 = meanPoint [p] := clusterMean_zero [p]

/-- Lemma: `np.allclose` accepts equal centroid lists for nonnegative `atol`. -/
theorem allclose_refl (x : ℝ × ℝ) (atol : ℝ) (h : 0 ≤ atol) :
    allclose [x] [x] atol := by
  unfold allclose
  intro pq hpq
  rw [List.zip_cons_cons, List.zip_nil_right] at hpq
  rcases List.mem_singleton.mp hpq with rfl
  have h1 := abs_nonneg x.1
  have h2 := abs_nonneg x.2
  constructor
  · rw [sub_self, abs_zero]
    nlinarith
  · rw [sub_self, abs_zero]
    nlinarith

/-- The componentwise mean of a single point is that point. -/
theorem meanPoint_singleton (p : ℝ × ℝ) : meanPoint [p] = p := by
  rw [meanPoint]
  simp

/-- The mean of the C8 counterexample coordinates. -/
theorem meanPoint_coordsC8 : meanPoint coordsC8 = (1 / 200000, 0) := by
  rw [meanPoint, coordsC8]
  norm_num

/-! ## Claim C8 -/

/-- C8 counterexample: on two points 10⁻⁵ degrees apart, k-means with
`k = 1` returns the *initial* centroid, not the arithmetic mean of the
inputs — `np.allclose` fires on the first iteration, and the loop breaks
before the update is stored. -/
theorem C8_counterexample :
    (simple_kmeans coordsC8 1 [0] 100 (1 / 10000)).2 = [((0 : ℝ), (0 : ℝ))] ∧
    meanPoint coordsC8 ≠ ((0 : ℝ), (0 : ℝ)) := by
  have hg : coordsC8.get? 0 = some ((0 : ℝ), (0 : ℝ)) := rfl
  have hk : min 1 coordsC8.length = 1 := rfl
  have hinit : ([0].filterMap fun j => coordsC8.get? j)
      = [((0 : ℝ), (0 : ℝ))] := by
    simp only [List.filterMap_cons, List.filterMap_nil, hg]
  have hcl : allclose [((0 : ℝ), (0 : ℝ))] [meanPoint coordsC8] (1 / 10000) := by
    rw [meanPoint_coordsC8]
    unfold allclose
    intro pq hpq
    rw [List.zip_cons_cons, List.zip_nil_right] at hpq
    rcases List.mem_singleton.mp hpq with rfl
    constructor
    · show |(0 : ℝ) - 1 / 200000| ≤ 1 / 10000 + 1 / 100000 * |(1 : ℝ) / 200000|
      rw [zero_sub, abs_neg, abs_of_nonneg (by norm_num)]
      norm_num
    · show |(0 : ℝ) - 0| ≤ 1 / 10000 + 1 / 100000 * |(0 : ℝ)|
      rw [sub_self, abs_zero]
      norm_num
  have hres : simple_kmeans coordsC8 1 [0] 100 (1 / 10000)
      = (List.replicate coordsC8.length 0, [((0 : ℝ), (0 : ℝ))]) := by
    simp only [simple_kmeans, hk, hinit]
    rw [show (100 : ℕ) = 99 + 1 from rfl, kmeansLoop_succ]
    simp only [map_argmin_singleton, show List.range 1 = [0] from rfl,
      List.map_cons, List.map_nil, clusterMean_zero]
    rw [if_pos hcl]
  refine ⟨by rw [hres], ?_⟩
  rw [meanPoint_coordsC8]
  intro h
  have h1 := congrArg Prod.fst h
  norm_num at h1

/-- C8 (amended): k-means with requested `k = 1` labels every point 0, and
the single returned centroid equals the arithmetic mean of all input
coordinates *provided* the initial (seed-chosen) centroid is not already
within `np.allclose` tolerance of the mean — when it is, the loop breaks
before storing the update and returns the initial centroid instead. On a
single zone (`k = min(requested_k, 1) = 1`) the result is exactly
`([0], [the point])`, which does equal the mean. -/
theorem C8_kmeans_k1_amended :
    (∀ (coords : List (ℝ × ℝ)) (i : ℕ) (c0 : ℝ × ℝ),
      coords.get? i = some c0 →
      (simple_kmeans coords 1 [i] 100 (1 / 10000)).1
          = List.replicate coords.length 0 ∧
      (¬allclose [c0] [meanPoint coords] (1 / 10000) →
        (simple_kmeans coords 1 [i] 100 (1 / 10000)).2 = [meanPoint coords])) ∧
    (∀ (p : ℝ × ℝ) (n : ℕ), 1 ≤ n →
      simple_kmeans [p] n [0] 100 (1 / 10000) = ([0], [p])) := by
  constructor
  · intro coords i c0 hg
    have hi : i < coords.length := by
      rcases Nat.lt_or_ge i coords.length with h | h
      · exact h
      · rw [List.get?_eq_none.mpr h] at hg
        cases hg
    have hk : min 1 coords.length = 1 :=
      Nat.min_eq_left (Nat.lt_of_le_of_lt (Nat.zero_le i) hi)
    have hinit : ([i].filterMap fun j => coords.get? j) = [c0] := by
      simp only [List.filterMap_cons, List.filterMap_nil, hg]
    by_cases hcl : allclose [c0] [meanPoint coords] (1 / 10000)
    · have hres : simple_kmeans coords 1 [i] 100 (1 / 10000)
          = (List.replicate coords.length 0, [c0]) := by
        simp only [simple_kmeans, hk, hinit]
        rw [show (100 : ℕ) = 99 + 1 from rfl, kmeansLoop_succ]
        simp only [map_argmin_singleton, show List.range 1 = [0] from rfl,
          List.map_cons, List.map_nil, clusterMean_zero]
        rw [if_pos hcl]
      rw [hres]
      exact ⟨rfl, fun hn => absurd hcl hn⟩
    · have hres : simple_kmeans coords 1 [i] 100 (1 / 10000)
          = (List.replicate coords.length 0, [meanPoint coords]) := by
        simp only [simple_kmeans, hk, hinit]
        rw [show (100 : ℕ) = 99 + 1 from rfl, kmeansLoop_succ]
        simp only [map_argmin_singleton, show List.range 1 = [0] from rfl,
          List.map_cons, List.map_nil, clusterMean_zero]
        rw [if_neg hcl]
        rw [show (99 : ℕ) = 98 + 1 from rfl, kmeansLoop_succ]
        simp only [map_argmin_singleton, show List.range 1 = [0] from rfl,
          List.map_cons, List.map_nil, clusterMean_zero]
        rw [if_pos (allclose_refl (meanPoint coords) _ (by norm_num))]
      rw [hres]
      exact ⟨rfl, fun _ => rfl⟩
  · intro p n hn
    have hk : min n ([p] : List (ℝ × ℝ)).length = 1 := by
      simpa using Nat.min_eq_right hn
    have hg0 : ([p] : List (ℝ × ℝ)).get? 0 = some p := rfl
    have hinit : ([0].filterMap fun j => ([p] : List (ℝ × ℝ)).get? j) = [p] := by
      simp only [List.filterMap_cons, List.filterMap_nil, hg0]
    simp only [simple_kmeans, hk, hinit]
    rw [show (100 : ℕ) = 99 + 1 from rfl, kmeansLoop_succ]
    simp only [List.map_cons, List.map_nil, argminIdx_singleton,
      show List.range 1 = [0] from rfl, clusterMean_single, meanPoint_singleton]
    rw [if_pos (allclose_refl p _ (by norm_num))]

/-- Witness for the amended C8 on two well-separated points. -/
theorem C8_kmeans_k1_amended_witness :
    ([((0 : ℝ), (0 : ℝ)), ((10 : ℝ), (0 : ℝ))].get? 0 = some ((0 : ℝ), (0 : ℝ))) ∧
    (simple_kmeans [((0 : ℝ), (0 : ℝ)), ((10 : ℝ), (0 : ℝ))] 1 [0] 100 (1 / 10000)).1
      = List.replicate 2 0 ∧
    (simple_kmeans [((0 : ℝ), (0 : ℝ)), ((10 : ℝ), (0 : ℝ))] 1 [0] 100 (1 / 10000)).2
      = [meanPoint [((0 : ℝ), (0 : ℝ)), ((10 : ℝ), (0 : ℝ))]] ∧
    simple_kmeans [((5 : ℝ), (5 : ℝ))] 3 [0] 100 (1 / 10000)
      = ([0], [((5 : ℝ), (5 : ℝ))]) := by
  have hg : [((0 : ℝ), (0 : ℝ)), ((10 : ℝ), (0 : ℝ))].get? 0
      = some ((0 : ℝ), (0 : ℝ)) := rfl
  have hm : meanPoint [((0 : ℝ), (0 : ℝ)), ((10 : ℝ), (0 : ℝ))] = (5, 0) := by
    rw [meanPoint]
    norm_num
  have hfar : ¬allclose [((0 : ℝ), (0 : ℝ))]
      [meanPoint [((0 : ℝ), (0 : ℝ)), ((10 : ℝ), (0 : ℝ))]] (1 / 10000) := by
    rw [hm]
    intro hcl
    have h1 := (hcl ((0, 0), (5, 0)) (by
      rw [List.zip_cons_cons, List.zip_nil_right]
      exact List.mem_singleton.mpr rfl)).1
    rw [show (((0 : ℝ), (0 : ℝ)), ((5 : ℝ), (0 : ℝ))).1.1 = (0 : ℝ) from rfl,
        show (((0 : ℝ), (0 : ℝ)), ((5 : ℝ), (0 : ℝ))).2.1 = (5 : ℝ) from rfl] at h1
    rw [zero_sub, abs_neg, abs_of_nonneg (by norm_num)] at h1
    norm_num at h1
  have hmain := C8_kmeans_k1_amended.1
    [((0 : ℝ), (0 : ℝ)), ((10 : ℝ), (0 : ℝ))] 0 ((0 : ℝ), (0 : ℝ)) hg
  exact ⟨hg, hmain.1, hmain.2 hfar,
    C8_kmeans_k1_amended.2 ((5 : ℝ), (5 : ℝ)) 3 (by norm_num)⟩

end
